import Mathlib

/-!
Shallow embedding of the `MultiSessionVotingSystem` contract
(multi-session voting ledger: session/candidate lifecycle, voter
registration, vote casting with double-vote prevention, winner/tie
computation).

State is modelled as a record of the contract's storage; each external
function becomes a Lean function `... → Except Err State` where
`Except.error` models a reverted (all-or-nothing rejected) call and
`Except.ok` the committed post-state.  The host chain's revert semantics
(a failed call leaves storage and the event log untouched) is captured by
`stepOp`, which commits the new state on success and keeps the old state
on failure.  Addresses and unsigned integers are modelled as `Nat`
(the zero address is `0`); the checked arithmetic of the source never
overflows along the operations modelled here, so plain `Nat` arithmetic
is faithful.  `block.timestamp` and `msg.sender` are explicit `now` /
`sender` arguments supplied with every call.
-/

/-- One selectable option inside a session (mirrors `struct Candidate`). -/
structure Candidate where
  id : Nat
  name : String
  voteCount : Nat
  isActive : Bool
deriving DecidableEq, Repr

/-- Zero-initialised candidate, the default value of a storage mapping slot. -/
def defaultCandidate : Candidate :=
  { id := 0, name := "", voteCount := 0, isActive := false }

/-- One voting session (mirrors `struct VotingSession`); the three
mappings are modelled as total functions with zero-initialised defaults. -/
structure VotingSession where
  sessionId : Nat
  sessionName : String
  startTime : Nat
  endTime : Nat
  isActive : Bool
  isCreated : Bool
  candidateCount : Nat
  totalVotes : Nat
  candidates : Nat → Candidate
  hasVoted : Nat → Bool
  voterChoice : Nat → Nat

/-- Zero-initialised session, the default value of `votingSessions` slots. -/
def defaultSession : VotingSession :=
  { sessionId := 0, sessionName := "", startTime := 0, endTime := 0,
    isActive := false, isCreated := false, candidateCount := 0, totalVotes := 0,
    candidates := fun _ => defaultCandidate,
    hasVoted := fun _ => false,
    voterChoice := fun _ => 0 }

/-- The typed domain events emitted by the contract. -/
inductive Event where
  | SessionCreated (sessionId : Nat) (sessionName : String) (startTime endTime : Nat)
  | SessionStarted (sessionId : Nat)
  | SessionEnded (sessionId : Nat)
  | CandidateAdded (sessionId candidateId : Nat) (candidateName : String)
  | CandidateUpdated (sessionId candidateId : Nat) (newName : String)
  | CandidateRemoved (sessionId candidateId : Nat)
  | VoteCast (sessionId voter candidateId : Nat)
  | VoterRegistered (voter : Nat)
deriving DecidableEq, Repr

/-- Error taxonomy of the specification: authorization, input validation,
lifecycle-state errors.  Each carries the source's revert message. -/
inductive Err where
  | AuthError (msg : String)
  | ValidationError (msg : String)
  | StateError (msg : String)
deriving DecidableEq, Repr

/-- Whole contract storage plus the append-only event log. -/
structure MultiSessionVotingSystem where
  votingSessions : Nat → VotingSession
  registeredVoters : Nat → Bool
  sessionCount : Nat
  owner : Nat
  events : List Event

/-- Overwrite the session stored at index `sid`. -/
def MultiSessionVotingSystem.setSession (st : MultiSessionVotingSystem)
    (sid : Nat) (s : VotingSession) : MultiSessionVotingSystem :=
  { st with votingSessions := fun i => if i = sid then s else st.votingSessions i }

/-- Append one event to the log. -/
def MultiSessionVotingSystem.emit (st : MultiSessionVotingSystem)
    (e : Event) : MultiSessionVotingSystem :=
  { st with events := st.events ++ [e] }

/-- State established by the constructor: the deployer is the owner and is
automatically registered as a voter. -/
def initState (deployer : Nat) : MultiSessionVotingSystem :=
  { votingSessions := fun _ => defaultSession,
    registeredVoters := fun a => decide (a = deployer),
    sessionCount := 0,
    owner := deployer,
    events := [] }

/-- `isSessionActive`: false for out-of-range ids, otherwise
`isCreated && isActive` and the current time inside `[startTime, endTime]`. -/
def isSessionActive (now : Nat) (st : MultiSessionVotingSystem) (sid : Nat) : Bool :=
  if sid = 0 ∨ st.sessionCount < sid then false
  else
    let s := st.votingSessions sid
    if ¬ s.isCreated ∨ ¬ s.isActive then false
    else decide (s.startTime ≤ now ∧ now ≤ s.endTime)

/-- `addCandidateToSession`: owner-only, session must exist and not be
active per `isSessionActive`; appends a fresh candidate at the next id. -/
def addCandidateToSession (sender now sid : Nat) (cname : String)
    (st : MultiSessionVotingSystem) : Except Err MultiSessionVotingSystem :=
  if sender ≠ st.owner then .error (Err.AuthError ("Only owner can perform this action"))
  else if ¬ (1 ≤ sid ∧ sid ≤ st.sessionCount) then .error (Err.StateError ("Session does not exist"))
  else if ¬ (st.votingSessions sid).isCreated then .error (Err.StateError ("Session not found"))
  else if isSessionActive now st sid then .error (Err.StateError ("Cannot modify active session"))
  else if cname = "" then .error (Err.ValidationError ("Candidate name cannot be empty"))
  else
    let s := st.votingSessions sid
    let cc := s.candidateCount + 1
    .ok ((st.setSession sid
      { s with candidateCount := cc,
               candidates := fun i => if i = cc then
                   { id := cc, name := cname, voteCount := 0, isActive := true }
                 else s.candidates i }).emit (Event.CandidateAdded sid cc cname))

/-- The candidate-adding loop of `createSession`. -/
def addCandidates (sender now sid : Nat) (cnames : List String)
    (st : MultiSessionVotingSystem) : Except Err MultiSessionVotingSystem :=
  List.foldlM (fun acc nm => addCandidateToSession sender now sid nm acc) st cnames

/-- `createSession`: owner-only; validates the window, the candidate list
and the name, allocates the next session id, resets the slot's scalar
fields and then adds every candidate through `addCandidateToSession`
(the internal call runs that function's checks, exactly as in the source). -/
def createSession (sender now : Nat) (sname : String) (startT endT : Nat)
    (cnames : List String) (st : MultiSessionVotingSystem) :
    Except Err (MultiSessionVotingSystem × Nat) :=
  if sender ≠ st.owner then .error (Err.AuthError ("Only owner can perform this action"))
  else if ¬ startT < endT then .error (Err.ValidationError ("Invalid time range"))
  else if cnames = [] then .error (Err.ValidationError ("At least one candidate required"))
  else if sname = "" then .error (Err.ValidationError ("Session name cannot be empty"))
  else
    let sc := st.sessionCount + 1
    let old := st.votingSessions sc
    let s0 : VotingSession :=
      { old with sessionId := sc, sessionName := sname, startTime := startT,
                 endTime := endT, isActive := false, isCreated := true,
                 candidateCount := 0, totalVotes := 0 }
    let st1 := ({ st with sessionCount := sc }).setSession sc s0
    match addCandidates sender now sc cnames st1 with
    | .error e => .error e
    | .ok st2 => .ok (st2.emit (Event.SessionCreated sc sname startT endT), sc)

/-- `updateCandidate`: owner-only, session exists and not active, name
non-empty, candidate id in range and active; renames in place. -/
def updateCandidate (sender now sid cid : Nat) (newName : String)
    (st : MultiSessionVotingSystem) : Except Err MultiSessionVotingSystem :=
  if sender ≠ st.owner then .error (Err.AuthError ("Only owner can perform this action"))
  else if ¬ (1 ≤ sid ∧ sid ≤ st.sessionCount) then .error (Err.StateError ("Session does not exist"))
  else if ¬ (st.votingSessions sid).isCreated then .error (Err.StateError ("Session not found"))
  else if isSessionActive now st sid then .error (Err.StateError ("Cannot modify active session"))
  else if newName = "" then .error (Err.ValidationError ("Candidate name cannot be empty"))
  else
    let s := st.votingSessions sid
    if ¬ (1 ≤ cid ∧ cid ≤ s.candidateCount) then .error (Err.ValidationError ("Invalid candidate ID"))
    else if ¬ (s.candidates cid).isActive then .error (Err.StateError ("Candidate not active"))
    else
      .ok ((st.setSession sid
        { s with candidates := fun i => if i = cid then
              { s.candidates cid with name := newName }
            else s.candidates i }).emit (Event.CandidateUpdated sid cid newName))

/-- `removeCandidateFromSession`: owner-only, session exists and not
active, candidate id in range and currently active; soft delete by
clearing the candidate's `isActive` flag. -/
def removeCandidateFromSession (sender now sid cid : Nat)
    (st : MultiSessionVotingSystem) : Except Err MultiSessionVotingSystem :=
  if sender ≠ st.owner then .error (Err.AuthError ("Only owner can perform this action"))
  else if ¬ (1 ≤ sid ∧ sid ≤ st.sessionCount) then .error (Err.StateError ("Session does not exist"))
  else if ¬ (st.votingSessions sid).isCreated then .error (Err.StateError ("Session not found"))
  else if isSessionActive now st sid then .error (Err.StateError ("Cannot modify active session"))
  else
    let s := st.votingSessions sid
    if ¬ (1 ≤ cid ∧ cid ≤ s.candidateCount) then .error (Err.ValidationError ("Invalid candidate ID"))
    else if ¬ (s.candidates cid).isActive then .error (Err.StateError ("Candidate already inactive"))
    else
      .ok ((st.setSession sid
        { s with candidates := fun i => if i = cid then
              { s.candidates cid with isActive := false }
            else s.candidates i }).emit (Event.CandidateRemoved sid cid))

/-- `startSession`: owner-only, session exists, not already active, and
the current time lies inside `[startTime, endTime)`. -/
def startSession (sender now sid : Nat)
    (st : MultiSessionVotingSystem) : Except Err MultiSessionVotingSystem :=
  if sender ≠ st.owner then .error (Err.AuthError ("Only owner can perform this action"))
  else if ¬ (1 ≤ sid ∧ sid ≤ st.sessionCount) then .error (Err.StateError ("Session does not exist"))
  else if ¬ (st.votingSessions sid).isCreated then .error (Err.StateError ("Session not found"))
  else
    let s := st.votingSessions sid
    if s.isActive then .error (Err.StateError ("Session already active"))
    else if now < s.startTime then .error (Err.StateError ("Session start time not reached"))
    else if ¬ now < s.endTime then .error (Err.StateError ("Session end time passed"))
    else .ok ((st.setSession sid { s with isActive := true }).emit (Event.SessionStarted sid))

/-- `endSession`: owner-only, session exists and its `isActive` flag is
set; clears the flag.  Note: no time-window precondition. -/
def endSession (sender sid : Nat)
    (st : MultiSessionVotingSystem) : Except Err MultiSessionVotingSystem :=
  if sender ≠ st.owner then .error (Err.AuthError ("Only owner can perform this action"))
  else if ¬ (1 ≤ sid ∧ sid ≤ st.sessionCount) then .error (Err.StateError ("Session does not exist"))
  else if ¬ (st.votingSessions sid).isCreated then .error (Err.StateError ("Session not found"))
  else
    let s := st.votingSessions sid
    if ¬ s.isActive then .error (Err.StateError ("Session not active"))
    else .ok ((st.setSession sid { s with isActive := false }).emit (Event.SessionEnded sid))

/-- `registerVoter`: owner-only, non-zero address, not already registered. -/
def registerVoter (sender voter : Nat)
    (st : MultiSessionVotingSystem) : Except Err MultiSessionVotingSystem :=
  if sender ≠ st.owner then .error (Err.AuthError ("Only owner can perform this action"))
  else if voter = 0 then .error (Err.ValidationError ("Invalid voter address"))
  else if st.registeredVoters voter then .error (Err.StateError ("Voter already registered"))
  else .ok (({ st with
      registeredVoters := fun a => if a = voter then true else st.registeredVoters a
    }).emit (Event.VoterRegistered voter))

/-- Loop body of `registerMultipleVoters`: register one entry unless it is
already registered or the zero address. -/
def regStep (acc : MultiSessionVotingSystem) (v : Nat) : MultiSessionVotingSystem :=
  if acc.registeredVoters v = false ∧ v ≠ 0 then
    ({ acc with registeredVoters := fun a => if a = v then true else acc.registeredVoters a
     }).emit (Event.VoterRegistered v)
  else acc

/-- `registerMultipleVoters`: owner-only bulk registration that silently
skips already-registered or zero entries. -/
def registerMultipleVoters (sender : Nat) (voters : List Nat)
    (st : MultiSessionVotingSystem) : Except Err MultiSessionVotingSystem :=
  if sender ≠ st.owner then .error (Err.AuthError ("Only owner can perform this action"))
  else .ok (voters.foldl regStep st)

/-- `registerSelf`: any caller, fails when already registered. -/
def registerSelf (sender : Nat)
    (st : MultiSessionVotingSystem) : Except Err MultiSessionVotingSystem :=
  if st.registeredVoters sender then .error (Err.StateError ("Already registered"))
  else .ok (({ st with
      registeredVoters := fun a => if a = sender then true else st.registeredVoters a
    }).emit (Event.VoterRegistered sender))

/-- `vote`: session exists, caller registered, session currently active
per `isSessionActive`, caller has not voted in this session, candidate id
in range and active; records the vote and bumps both tallies atomically. -/
def vote (sender now sid cid : Nat)
    (st : MultiSessionVotingSystem) : Except Err MultiSessionVotingSystem :=
  if ¬ (1 ≤ sid ∧ sid ≤ st.sessionCount) then .error (Err.StateError ("Session does not exist"))
  else if ¬ (st.votingSessions sid).isCreated then .error (Err.StateError ("Session not found"))
  else if ¬ st.registeredVoters sender then .error (Err.AuthError ("Not registered to vote"))
  else if ¬ isSessionActive now st sid then .error (Err.StateError ("Session not active"))
  else
    let s := st.votingSessions sid
    if s.hasVoted sender then .error (Err.StateError ("Already voted in this session"))
    else if ¬ (1 ≤ cid ∧ cid ≤ s.candidateCount) then .error (Err.ValidationError ("Invalid candidate"))
    else if ¬ (s.candidates cid).isActive then .error (Err.ValidationError ("Candidate not active"))
    else
      .ok ((st.setSession sid
        { s with
          hasVoted := fun a => if a = sender then true else s.hasVoted a,
          voterChoice := fun a => if a = sender then cid else s.voterChoice a,
          candidates := fun i => if i = cid then
              { s.candidates cid with voteCount := (s.candidates cid).voteCount + 1 }
            else s.candidates i,
          totalVotes := s.totalVotes + 1 }).emit (Event.VoteCast sid sender cid))

/-- The tally loop body of `getSessionWinner` for index `i`, acting on the
accumulator `(maxVotes, winnerId, tieCount)`. -/
def tallyStep (s : VotingSession) (acc : Nat × Nat × Nat) (i : Nat) : Nat × Nat × Nat :=
  if (s.candidates i).isActive then
    if acc.1 < (s.candidates i).voteCount then ((s.candidates i).voteCount, i, 1)
    else if (s.candidates i).voteCount = acc.1 ∧ 0 < acc.1 then (acc.1, acc.2.1, acc.2.2 + 1)
    else acc
  else acc

/-- The tally loop of `getSessionWinner` over candidate ids `1..n`
(ascending), starting from `(0, 0, 0)`. -/
def tallyAux (s : VotingSession) : Nat → Nat × Nat × Nat
  | 0 => (0, 0, 0)
  | n + 1 => tallyStep s (tallyAux s n) (n + 1)

/-- `getSessionWinner`: sentinel for a session with no votes; otherwise
scan all candidate ids, and either report the running winner with the tie
flag, or the no-winner sentinel when the scan selected nobody. -/
def getSessionWinner (st : MultiSessionVotingSystem) (sid : Nat) :
    Except Err (String × Nat × Bool) :=
  if ¬ (1 ≤ sid ∧ sid ≤ st.sessionCount) then .error (Err.StateError ("Session does not exist"))
  else if ¬ (st.votingSessions sid).isCreated then .error (Err.StateError ("Session not found"))
  else
    let s := st.votingSessions sid
    if s.totalVotes = 0 then .ok (("No votes cast"), 0, false)
    else
      let r := tallyAux s s.candidateCount
      if 0 < r.2.1 then .ok ((s.candidates r.2.1).name, r.1, decide (1 < r.2.2))
      else .ok (("No winner"), 0, false)

/-- One external mutating call together with its ambient caller identity
and clock reading. -/
inductive Op where
  | opCreateSession (sender now : Nat) (sname : String) (startT endT : Nat) (cnames : List String)
  | opAddCandidate (sender now sid : Nat) (cname : String)
  | opUpdateCandidate (sender now sid cid : Nat) (newName : String)
  | opRemoveCandidate (sender now sid cid : Nat)
  | opStartSession (sender now sid : Nat)
  | opEndSession (sender sid : Nat)
  | opRegisterVoter (sender voter : Nat)
  | opRegisterMany (sender : Nat) (voters : List Nat)
  | opRegisterSelf (sender : Nat)
  | opVote (sender now sid cid : Nat)

/-- Dispatch one call to its implementation. -/
def runOp (o : Op) (st : MultiSessionVotingSystem) : Except Err MultiSessionVotingSystem :=
  match o with
  | .opCreateSession sender now sname startT endT cnames =>
      match createSession sender now sname startT endT cnames st with
      | .ok p => .ok p.1
      | .error e => .error e
  | .opAddCandidate sender now sid cname => addCandidateToSession sender now sid cname st
  | .opUpdateCandidate sender now sid cid newName => updateCandidate sender now sid cid newName st
  | .opRemoveCandidate sender now sid cid => removeCandidateFromSession sender now sid cid st
  | .opStartSession sender now sid => startSession sender now sid st
  | .opEndSession sender sid => endSession sender sid st
  | .opRegisterVoter sender voter => registerVoter sender voter st
  | .opRegisterMany sender voters => registerMultipleVoters sender voters st
  | .opRegisterSelf sender => registerSelf sender st
  | .opVote sender now sid cid => vote sender now sid cid st

/-- Committed effect of one call: the new state on success, the untouched
old state on a revert (all-or-nothing semantics of the host chain). -/
def stepOp (o : Op) (st : MultiSessionVotingSystem) : MultiSessionVotingSystem :=
  match runOp o st with
  | .ok st' => st'
  | .error _ => st

/-- Apply a sequence of calls in order, committing each in turn. -/
def runOps (st : MultiSessionVotingSystem) (ops : List Op) : MultiSessionVotingSystem :=
  ops.foldl (fun s o => stepOp o s) st

/-- States reachable from deployment by any sequence of calls, by any
callers, at any clock readings. -/
inductive Reachable : MultiSessionVotingSystem → Prop where
  | init (deployer : Nat) : Reachable (initState deployer)
  | step (o : Op) {st : MultiSessionVotingSystem} :
      Reachable st → Reachable (stepOp o st)

example : (stepOp (Op.opCreateSession 1 0 ("Council") 10 100 [("Alice"), ("Bob")])
    (initState 1)).sessionCount = 1 := by decide

example : runOp (Op.opCreateSession 1 0 ("Council") 10 100 [("Alice"), ("")])
    (initState 1) = .error (Err.ValidationError ("Candidate name cannot be empty")) := by rfl

/-- Sum of `voteCount` over all of a session's candidate slots `1..candidateCount`
(active or deactivated). -/
def sumVotes (s : VotingSession) : Nat :=
  (Finset.Icc 1 s.candidateCount).sum (fun i => (s.candidates i).voteCount)

/-- The set of voter identities recorded as having voted in a session. -/
def votersOf (s : VotingSession) : Set Nat := { a | s.hasVoted a = true }

/-- Whether an event is a `VoteCast` for the given (session, voter) pair. -/
def isVoteCastFor (sid a : Nat) : Event → Bool
  | .VoteCast s v _ => decide (s = sid ∧ v = a)
  | _ => false

/-- Number of `VoteCast` events recorded for a (session, voter) pair. -/
def voteCastCount (es : List Event) (sid a : Nat) : Nat :=
  (es.filter (isVoteCastFor sid a)).length

/-- Number of candidate ids in `1..n` that are active with `voteCount = m`. -/
def countEqA (s : VotingSession) (n m : Nat) : Nat :=
  match n with
  | 0 => 0
  | k + 1 => countEqA s k m +
      (if (s.candidates (k + 1)).isActive = true ∧ (s.candidates (k + 1)).voteCount = m
       then 1 else 0)

lemma voteCastCount_append (es es' : List Event) (sid a : Nat) :
    voteCastCount (es ++ es') sid a = voteCastCount es sid a + voteCastCount es' sid a := by
  simp [voteCastCount, List.filter_append]

lemma voteCastCount_single_other (e : Event) (sid a : Nat)
    (he : isVoteCastFor sid a e = false) : voteCastCount [e] sid a = 0 := by
  simp [voteCastCount, List.filter, he]

lemma sumVotes_congr {s s' : VotingSession}
    (hcc : s'.candidateCount = s.candidateCount)
    (h : ∀ i, 1 ≤ i → i ≤ s.candidateCount →
      (s'.candidates i).voteCount = (s.candidates i).voteCount) :
    sumVotes s' = sumVotes s := by
  unfold sumVotes
  rw [hcc]
  refine Finset.sum_congr rfl (fun i hi => ?_)
  rcases Finset.mem_Icc.mp hi with ⟨hi1, hi2⟩
  exact h i hi1 hi2

lemma sumVotes_extend {s s' : VotingSession}
    (hcc : s'.candidateCount = s.candidateCount + 1)
    (htop : (s'.candidates (s.candidateCount + 1)).voteCount = 0)
    (h : ∀ i, 1 ≤ i → i ≤ s.candidateCount →
      (s'.candidates i).voteCount = (s.candidates i).voteCount) :
    sumVotes s' = sumVotes s := by
  unfold sumVotes
  rw [hcc, Finset.sum_Icc_succ_top (by omega)]
  rw [htop]
  have : ((Finset.Icc 1 s.candidateCount).sum fun i => (s'.candidates i).voteCount)
      = (Finset.Icc 1 s.candidateCount).sum fun i => (s.candidates i).voteCount := by
    refine Finset.sum_congr rfl (fun i hi => ?_)
    rcases Finset.mem_Icc.mp hi with ⟨hi1, hi2⟩
    exact h i hi1 hi2
  omega

lemma sumVotes_bump {s s' : VotingSession} {cid : Nat}
    (h1 : 1 ≤ cid) (h2 : cid ≤ s.candidateCount)
    (hcc : s'.candidateCount = s.candidateCount)
    (h : ∀ i, 1 ≤ i → i ≤ s.candidateCount →
      (s'.candidates i).voteCount
        = (s.candidates i).voteCount + (if i = cid then 1 else 0)) :
    sumVotes s' = sumVotes s + 1 := by
  unfold sumVotes
  rw [hcc]
  have hrw : ((Finset.Icc 1 s.candidateCount).sum fun i => (s'.candidates i).voteCount)
      = (Finset.Icc 1 s.candidateCount).sum
          (fun i => (s.candidates i).voteCount + (if i = cid then 1 else 0)) := by
    refine Finset.sum_congr rfl (fun i hi => ?_)
    rcases Finset.mem_Icc.mp hi with ⟨hi1, hi2⟩
    exact h i hi1 hi2
  rw [hrw, Finset.sum_add_distrib]
  have hmem : cid ∈ Finset.Icc 1 s.candidateCount := Finset.mem_Icc.mpr ⟨h1, h2⟩
  rw [Finset.sum_ite_eq' (Finset.Icc 1 s.candidateCount) cid (fun _ => 1), if_pos hmem]

lemma addCandidate_ok {sender now sid : Nat} {cname : String}
    {st st' : MultiSessionVotingSystem}
    (h : addCandidateToSession sender now sid cname st = .ok st') :
    sender = st.owner ∧ 1 ≤ sid ∧ sid ≤ st.sessionCount ∧
    (st.votingSessions sid).isCreated = true ∧
    isSessionActive now st sid = false ∧ cname ≠ "" ∧
    st' = (st.setSession sid
      { st.votingSessions sid with
        candidateCount := (st.votingSessions sid).candidateCount + 1,
        candidates := fun i => if i = (st.votingSessions sid).candidateCount + 1 then
            { id := (st.votingSessions sid).candidateCount + 1, name := cname,
              voteCount := 0, isActive := true }
          else (st.votingSessions sid).candidates i }).emit
      (Event.CandidateAdded sid ((st.votingSessions sid).candidateCount + 1) cname) := by
  unfold addCandidateToSession at h
  split_ifs at h with h1 h2 h3 h4 h5
  push_neg at h1 h2
  refine ⟨h1, h2.1, h2.2, h3, by simpa using h4, h5, (Except.ok.inj h).symm⟩

lemma updateCandidate_ok {sender now sid cid : Nat} {newName : String}
    {st st' : MultiSessionVotingSystem}
    (h : updateCandidate sender now sid cid newName st = .ok st') :
    sender = st.owner ∧ 1 ≤ sid ∧ sid ≤ st.sessionCount ∧
    (st.votingSessions sid).isCreated = true ∧
    isSessionActive now st sid = false ∧ newName ≠ "" ∧
    1 ≤ cid ∧ cid ≤ (st.votingSessions sid).candidateCount ∧
    ((st.votingSessions sid).candidates cid).isActive = true ∧
    st' = (st.setSession sid
      { st.votingSessions sid with
        candidates := fun i => if i = cid then
            { (st.votingSessions sid).candidates cid with name := newName }
          else (st.votingSessions sid).candidates i }).emit
      (Event.CandidateUpdated sid cid newName) := by
  unfold updateCandidate at h
  dsimp only at h
  split_ifs at h with h1 h2 h3 h4 h5 h6 h7
  push_neg at h1 h2 h6
  exact ⟨h1, h2.1, h2.2, h3, by simpa using h4, h5, h6.1, h6.2, h7, (Except.ok.inj h).symm⟩

lemma removeCandidate_ok {sender now sid cid : Nat}
    {st st' : MultiSessionVotingSystem}
    (h : removeCandidateFromSession sender now sid cid st = .ok st') :
    sender = st.owner ∧ 1 ≤ sid ∧ sid ≤ st.sessionCount ∧
    (st.votingSessions sid).isCreated = true ∧
    isSessionActive now st sid = false ∧
    1 ≤ cid ∧ cid ≤ (st.votingSessions sid).candidateCount ∧
    ((st.votingSessions sid).candidates cid).isActive = true ∧
    st' = (st.setSession sid
      { st.votingSessions sid with
        candidates := fun i => if i = cid then
            { (st.votingSessions sid).candidates cid with isActive := false }
          else (st.votingSessions sid).candidates i }).emit
      (Event.CandidateRemoved sid cid) := by
  unfold removeCandidateFromSession at h
  dsimp only at h
  split_ifs at h with h1 h2 h3 h4 h5 h6
  push_neg at h1 h2 h5
  exact ⟨h1, h2.1, h2.2, h3, by simpa using h4, h5.1, h5.2, h6, (Except.ok.inj h).symm⟩

lemma startSession_ok {sender now sid : Nat} {st st' : MultiSessionVotingSystem}
    (h : startSession sender now sid st = .ok st') :
    sender = st.owner ∧ 1 ≤ sid ∧ sid ≤ st.sessionCount ∧
    (st.votingSessions sid).isCreated = true ∧
    (st.votingSessions sid).isActive = false ∧
    (st.votingSessions sid).startTime ≤ now ∧ now < (st.votingSessions sid).endTime ∧
    st' = (st.setSession sid { st.votingSessions sid with isActive := true }).emit
      (Event.SessionStarted sid) := by
  unfold startSession at h
  dsimp only at h
  split_ifs at h with h1 h2 h3 h4 h5 h6
  push_neg at h1 h2 h5 h6
  exact ⟨h1, h2.1, h2.2, h3, by simpa using h4, h5, h6, (Except.ok.inj h).symm⟩

lemma endSession_ok {sender sid : Nat} {st st' : MultiSessionVotingSystem}
    (h : endSession sender sid st = .ok st') :
    sender = st.owner ∧ 1 ≤ sid ∧ sid ≤ st.sessionCount ∧
    (st.votingSessions sid).isCreated = true ∧
    (st.votingSessions sid).isActive = true ∧
    st' = (st.setSession sid { st.votingSessions sid with isActive := false }).emit
      (Event.SessionEnded sid) := by
  unfold endSession at h
  dsimp only at h
  split_ifs at h with h1 h2 h3 h4
  push_neg at h1 h2
  exact ⟨h1, h2.1, h2.2, h3, h4, (Except.ok.inj h).symm⟩

lemma registerVoter_ok {sender voter : Nat} {st st' : MultiSessionVotingSystem}
    (h : registerVoter sender voter st = .ok st') :
    sender = st.owner ∧ voter ≠ 0 ∧ st.registeredVoters voter = false ∧
    st' = ({ st with
      registeredVoters := fun a => if a = voter then true else st.registeredVoters a
    }).emit (Event.VoterRegistered voter) := by
  unfold registerVoter at h
  split_ifs at h with h1 h2 h3
  push_neg at h1
  exact ⟨h1, h2, by simpa using h3, (Except.ok.inj h).symm⟩

lemma registerMany_ok {sender : Nat} {voters : List Nat} {st st' : MultiSessionVotingSystem}
    (h : registerMultipleVoters sender voters st = .ok st') :
    sender = st.owner ∧ st' = voters.foldl regStep st := by
  unfold registerMultipleVoters at h
  split_ifs at h with h1
  push_neg at h1
  exact ⟨h1, (Except.ok.inj h).symm⟩

lemma registerSelf_ok {sender : Nat} {st st' : MultiSessionVotingSystem}
    (h : registerSelf sender st = .ok st') :
    st.registeredVoters sender = false ∧
    st' = ({ st with
      registeredVoters := fun a => if a = sender then true else st.registeredVoters a
    }).emit (Event.VoterRegistered sender) := by
  unfold registerSelf at h
  split_ifs at h with h1
  exact ⟨by simpa using h1, (Except.ok.inj h).symm⟩

lemma vote_ok {sender now sid cid : Nat} {st st' : MultiSessionVotingSystem}
    (h : vote sender now sid cid st = .ok st') :
    1 ≤ sid ∧ sid ≤ st.sessionCount ∧ (st.votingSessions sid).isCreated = true ∧
    st.registeredVoters sender = true ∧ isSessionActive now st sid = true ∧
    (st.votingSessions sid).hasVoted sender = false ∧
    1 ≤ cid ∧ cid ≤ (st.votingSessions sid).candidateCount ∧
    ((st.votingSessions sid).candidates cid).isActive = true ∧
    st' = (st.setSession sid
      { st.votingSessions sid with
        hasVoted := fun a => if a = sender then true else (st.votingSessions sid).hasVoted a,
        voterChoice := fun a => if a = sender then cid else (st.votingSessions sid).voterChoice a,
        candidates := fun i => if i = cid then
            { (st.votingSessions sid).candidates cid with
              voteCount := ((st.votingSessions sid).candidates cid).voteCount + 1 }
          else (st.votingSessions sid).candidates i,
        totalVotes := (st.votingSessions sid).totalVotes + 1 }).emit
      (Event.VoteCast sid sender cid) := by
  unfold vote at h
  dsimp only at h
  split_ifs at h with h1 h2 h3 h4 h5 h6 h7
  push_neg at h1 h6
  exact ⟨h1.1, h1.2, h2, by simpa using h3, by simpa using h4, by simpa using h5,
    h6.1, h6.2, h7, (Except.ok.inj h).symm⟩

lemma createSession_ok {sender now : Nat} {sname : String} {startT endT : Nat}
    {cnames : List String} {st : MultiSessionVotingSystem} {p : MultiSessionVotingSystem × Nat}
    (h : createSession sender now sname startT endT cnames st = .ok p) :
    sender = st.owner ∧ startT < endT ∧ cnames ≠ [] ∧ sname ≠ "" ∧
    p.2 = st.sessionCount + 1 ∧
    ∃ st2, addCandidates sender now (st.sessionCount + 1) cnames
        (({ st with sessionCount := st.sessionCount + 1 }).setSession (st.sessionCount + 1)
          { st.votingSessions (st.sessionCount + 1) with
            sessionId := st.sessionCount + 1, sessionName := sname, startTime := startT,
            endTime := endT, isActive := false, isCreated := true,
            candidateCount := 0, totalVotes := 0 }) = .ok st2 ∧
      p.1 = st2.emit (Event.SessionCreated (st.sessionCount + 1) sname startT endT) := by
  unfold createSession at h
  dsimp only at h
  split_ifs at h with h1 h2 h3 h4
  push_neg at h1 h2
  split at h
  · simp at h
  · rename_i st2 heq
    have hp := (Except.ok.inj h).symm
    exact ⟨h1, h2, h3, h4, by rw [hp], st2, heq, by rw [hp]⟩

/-- Global state invariant maintained by every reachable state: per-session
tally consistency (`totalVotes` = sum of candidate `voteCount`s = number of
recorded voters), zero-initialisation of slots beyond `sessionCount`,
existence of every allocated session, registration of every recorded voter,
and exactly one `VoteCast` event per recorded (session, voter) pair. -/
structure GInv (st : MultiSessionVotingSystem) : Prop where
  tv_sum : ∀ i, (st.votingSessions i).totalVotes = sumVotes (st.votingSessions i)
  voters_fin : ∀ i, (votersOf (st.votingSessions i)).Finite
  voters_card : ∀ i, (votersOf (st.votingSessions i)).ncard = (st.votingSessions i).totalVotes
  high_clear : ∀ i, i = 0 ∨ st.sessionCount < i →
      (st.votingSessions i).isCreated = false ∧ ∀ a, (st.votingSessions i).hasVoted a = false
  low_created : ∀ i, 1 ≤ i → i ≤ st.sessionCount → (st.votingSessions i).isCreated = true
  voted_reg : ∀ i a, (st.votingSessions i).hasVoted a = true → st.registeredVoters a = true
  vc_count : ∀ i a, voteCastCount st.events i a
      = (if (st.votingSessions i).hasVoted a then 1 else 0)

lemma sumVotes_of_cc_zero {s : VotingSession} (h : s.candidateCount = 0) :
    sumVotes s = 0 := by
  unfold sumVotes
  rw [h, Finset.Icc_eq_empty (by omega), Finset.sum_empty]

lemma votersOf_empty {s : VotingSession} (h : ∀ a, s.hasVoted a = false) :
    votersOf s = ∅ := by
  ext a
  simp [votersOf, h a]

lemma GInv_init (deployer : Nat) : GInv (initState deployer) := by
  have hvo : votersOf defaultSession = ∅ := votersOf_empty (fun _ => rfl)
  constructor
  · intro i
    show (0 : Nat) = sumVotes defaultSession
    rw [sumVotes_of_cc_zero rfl]
  · intro i
    show (votersOf defaultSession).Finite
    rw [hvo]; exact Set.finite_empty
  · intro i
    show (votersOf defaultSession).ncard = 0
    rw [hvo, Set.ncard_empty]
  · intro i _
    exact ⟨rfl, fun _ => rfl⟩
  · intro i h1 h2
    simp [initState] at h2
    omega
  · intro i a h
    simp [initState, defaultSession] at h
  · intro i a
    simp [initState, voteCastCount, defaultSession]

/-- Emitting an event that is not a `VoteCast` preserves the invariant. -/
lemma GInv_emit {st : MultiSessionVotingSystem} {e : Event}
    (hI : GInv st) (he : ∀ i a, isVoteCastFor i a e = false) :
    GInv (st.emit e) := by
  refine ⟨hI.tv_sum, hI.voters_fin, hI.voters_card, hI.high_clear, hI.low_created,
    hI.voted_reg, ?_⟩
  intro i a
  show voteCastCount (st.events ++ [e]) i a = _
  rw [voteCastCount_append, voteCastCount_single_other e i a (he i a), Nat.add_zero]
  exact hI.vc_count i a

/-- Replacing an existing session slot with a session that has the same
total, vote sum, voter record and creation flag, while emitting a
non-`VoteCast` event, preserves the invariant. -/
lemma GInv_setSession_emit {st : MultiSessionVotingSystem} {sid : Nat}
    {snew : VotingSession} {e : Event}
    (hI : GInv st) (hsid1 : 1 ≤ sid) (hsid2 : sid ≤ st.sessionCount)
    (htv : snew.totalVotes = (st.votingSessions sid).totalVotes)
    (hsum : sumVotes snew = sumVotes (st.votingSessions sid))
    (hhv : ∀ a, snew.hasVoted a = (st.votingSessions sid).hasVoted a)
    (hcr : snew.isCreated = (st.votingSessions sid).isCreated)
    (he : ∀ i a, isVoteCastFor i a e = false) :
    GInv ((st.setSession sid snew).emit e) := by
  have hsess : ∀ i, (((st.setSession sid snew).emit e).votingSessions i)
      = if i = sid then snew else st.votingSessions i := fun _ => rfl
  have hsc : ((st.setSession sid snew).emit e).sessionCount = st.sessionCount := rfl
  have hvo : votersOf snew = votersOf (st.votingSessions sid) := by
    ext a; simp [votersOf, hhv a]
  constructor
  · intro i
    rw [hsess i]
    split_ifs with hi
    · rw [htv, hsum]; exact hI.tv_sum sid
    · exact hI.tv_sum i
  · intro i
    rw [hsess i]
    split_ifs with hi
    · rw [hvo]; exact hI.voters_fin sid
    · exact hI.voters_fin i
  · intro i
    rw [hsess i]
    split_ifs with hi
    · rw [hvo, htv]; exact hI.voters_card sid
    · exact hI.voters_card i
  · intro i hi
    rw [hsc] at hi
    have hne : i ≠ sid := by omega
    rw [hsess i, if_neg hne]
    exact hI.high_clear i hi
  · intro i h1 h2
    rw [hsc] at h2
    rw [hsess i]
    split_ifs with hi
    · rw [hcr]; exact hI.low_created sid hsid1 hsid2
    · exact hI.low_created i h1 h2
  · intro i a hv
    rw [hsess i] at hv
    split_ifs at hv with hi
    · rw [hhv a] at hv
      exact hI.voted_reg sid a hv
    · exact hI.voted_reg i a hv
  · intro i a
    show voteCastCount (st.events ++ [e]) i a = _
    rw [voteCastCount_append, voteCastCount_single_other e i a (he i a), Nat.add_zero,
      hsess i]
    have hsame : (if i = sid then snew else st.votingSessions i).hasVoted a
        = (st.votingSessions i).hasVoted a := by
      split_ifs with hi
      · rw [hhv a, hi]
      · rfl
    rw [hsame]
    exact hI.vc_count i a

lemma GInv_addCandidate {sender now sid : Nat} {cname : String}
    {st st' : MultiSessionVotingSystem}
    (h : addCandidateToSession sender now sid cname st = .ok st') (hI : GInv st) :
    GInv st' := by
  obtain ⟨-, hs1, hs2, -, -, -, hst⟩ := addCandidate_ok h
  subst hst
  refine GInv_setSession_emit hI hs1 hs2 rfl ?_ (fun a => rfl) rfl (fun i a => rfl)
  refine sumVotes_extend rfl (by simp) ?_
  intro i h1 h2
  have hne : i ≠ (st.votingSessions sid).candidateCount + 1 := by omega
  simp [hne]

lemma GInv_updateCandidate {sender now sid cid : Nat} {newName : String}
    {st st' : MultiSessionVotingSystem}
    (h : updateCandidate sender now sid cid newName st = .ok st') (hI : GInv st) :
    GInv st' := by
  obtain ⟨-, hs1, hs2, -, -, -, -, -, -, hst⟩ := updateCandidate_ok h
  subst hst
  refine GInv_setSession_emit hI hs1 hs2 rfl ?_ (fun a => rfl) rfl (fun i a => rfl)
  refine sumVotes_congr rfl ?_
  intro i _ _
  by_cases hc : i = cid <;> simp [hc]

lemma GInv_removeCandidate {sender now sid cid : Nat}
    {st st' : MultiSessionVotingSystem}
    (h : removeCandidateFromSession sender now sid cid st = .ok st') (hI : GInv st) :
    GInv st' := by
  obtain ⟨-, hs1, hs2, -, -, -, -, -, hst⟩ := removeCandidate_ok h
  subst hst
  refine GInv_setSession_emit hI hs1 hs2 rfl ?_ (fun a => rfl) rfl (fun i a => rfl)
  refine sumVotes_congr rfl ?_
  intro i _ _
  by_cases hc : i = cid <;> simp [hc]

lemma GInv_startSession {sender now sid : Nat} {st st' : MultiSessionVotingSystem}
    (h : startSession sender now sid st = .ok st') (hI : GInv st) : GInv st' := by
  obtain ⟨-, hs1, hs2, -, -, -, -, hst⟩ := startSession_ok h
  subst hst
  exact GInv_setSession_emit hI hs1 hs2 rfl rfl (fun a => rfl) rfl (fun i a => rfl)

lemma GInv_endSession {sender sid : Nat} {st st' : MultiSessionVotingSystem}
    (h : endSession sender sid st = .ok st') (hI : GInv st) : GInv st' := by
  obtain ⟨-, hs1, hs2, -, -, hst⟩ := endSession_ok h
  subst hst
  exact GInv_setSession_emit hI hs1 hs2 rfl rfl (fun a => rfl) rfl (fun i a => rfl)

lemma GInv_registerVoter {sender voter : Nat} {st st' : MultiSessionVotingSystem}
    (h : registerVoter sender voter st = .ok st') (hI : GInv st) : GInv st' := by
  obtain ⟨-, -, -, hst⟩ := registerVoter_ok h
  subst hst
  refine ⟨hI.tv_sum, hI.voters_fin, hI.voters_card, hI.high_clear, hI.low_created, ?_, ?_⟩
  · intro i a hv
    have hold := hI.voted_reg i a hv
    show (if a = voter then true else st.registeredVoters a) = true
    split_ifs with ha
    · rfl
    · exact hold
  · intro i a
    show voteCastCount (st.events ++ [Event.VoterRegistered voter]) i a = _
    rw [voteCastCount_append,
      voteCastCount_single_other (Event.VoterRegistered voter) i a rfl, Nat.add_zero]
    exact hI.vc_count i a

lemma GInv_regStep {st : MultiSessionVotingSystem} (v : Nat) (hI : GInv st) :
    GInv (regStep st v) := by
  unfold regStep
  split_ifs with hc
  · refine ⟨hI.tv_sum, hI.voters_fin, hI.voters_card, hI.high_clear, hI.low_created, ?_, ?_⟩
    · intro i a hv
      have hold := hI.voted_reg i a hv
      show (if a = v then true else st.registeredVoters a) = true
      split_ifs with ha
      · rfl
      · exact hold
    · intro i a
      show voteCastCount (st.events ++ [Event.VoterRegistered v]) i a = _
      rw [voteCastCount_append,
        voteCastCount_single_other (Event.VoterRegistered v) i a rfl, Nat.add_zero]
      exact hI.vc_count i a
  · exact hI

lemma GInv_foldRegStep : ∀ (voters : List Nat) (st : MultiSessionVotingSystem),
    GInv st → GInv (voters.foldl regStep st)
  | [], _, hI => hI
  | v :: vs, st, hI => GInv_foldRegStep vs (regStep st v) (GInv_regStep v hI)

lemma GInv_registerMany {sender : Nat} {voters : List Nat}
    {st st' : MultiSessionVotingSystem}
    (h : registerMultipleVoters sender voters st = .ok st') (hI : GInv st) : GInv st' := by
  obtain ⟨-, hst⟩ := registerMany_ok h
  subst hst
  exact GInv_foldRegStep voters st hI

lemma GInv_registerSelf {sender : Nat} {st st' : MultiSessionVotingSystem}
    (h : registerSelf sender st = .ok st') (hI : GInv st) : GInv st' := by
  obtain ⟨-, hst⟩ := registerSelf_ok h
  subst hst
  refine ⟨hI.tv_sum, hI.voters_fin, hI.voters_card, hI.high_clear, hI.low_created, ?_, ?_⟩
  · intro i a hv
    have hold := hI.voted_reg i a hv
    show (if a = sender then true else st.registeredVoters a) = true
    split_ifs with ha
    · rfl
    · exact hold
  · intro i a
    show voteCastCount (st.events ++ [Event.VoterRegistered sender]) i a = _
    rw [voteCastCount_append,
      voteCastCount_single_other (Event.VoterRegistered sender) i a rfl, Nat.add_zero]
    exact hI.vc_count i a

lemma voteCastCount_single (e : Event) (sid a : Nat) :
    voteCastCount [e] sid a = if isVoteCastFor sid a e = true then 1 else 0 := by
  unfold voteCastCount
  rw [List.filter_singleton]
  split_ifs with h <;> simp [h]

/-- Invariant preservation for a committed vote, stated over the abstract
shape of the post-session. -/
lemma GInv_vote_aux {st : MultiSessionVotingSystem} {sid cid sender : Nat}
    {snew : VotingSession} (hI : GInv st)
    (hsid1 : 1 ≤ sid) (hsid2 : sid ≤ st.sessionCount)
    (hnv : (st.votingSessions sid).hasVoted sender = false)
    (hreg : st.registeredVoters sender = true)
    (hc1 : 1 ≤ cid) (hc2 : cid ≤ (st.votingSessions sid).candidateCount)
    (htv : snew.totalVotes = (st.votingSessions sid).totalVotes + 1)
    (hcc : snew.candidateCount = (st.votingSessions sid).candidateCount)
    (hcand : ∀ i, 1 ≤ i → i ≤ (st.votingSessions sid).candidateCount →
        (snew.candidates i).voteCount
          = ((st.votingSessions sid).candidates i).voteCount + (if i = cid then 1 else 0))
    (hhv : ∀ a, snew.hasVoted a
        = (if a = sender then true else (st.votingSessions sid).hasVoted a))
    (hcr : snew.isCreated = (st.votingSessions sid).isCreated) :
    GInv ((st.setSession sid snew).emit (Event.VoteCast sid sender cid)) := by
  have hsess : ∀ i, (((st.setSession sid snew).emit (Event.VoteCast sid sender cid)).votingSessions i)
      = if i = sid then snew else st.votingSessions i := fun _ => rfl
  have hsc : (((st.setSession sid snew).emit (Event.VoteCast sid sender cid))).sessionCount
      = st.sessionCount := rfl
  have hvo : votersOf snew = insert sender (votersOf (st.votingSessions sid)) := by
    ext a
    simp only [votersOf, Set.mem_insert_iff, Set.mem_setOf_eq, hhv a]
    by_cases ha : a = sender
    · simp [ha]
    · simp [ha]
  have hmem : sender ∉ votersOf (st.votingSessions sid) := by
    simp [votersOf, hnv]
  constructor
  · intro i
    rw [hsess i]
    split_ifs with hi
    · rw [htv, sumVotes_bump hc1 hc2 hcc hcand, hI.tv_sum sid]
    · exact hI.tv_sum i
  · intro i
    rw [hsess i]
    split_ifs with hi
    · rw [hvo]; exact (hI.voters_fin sid).insert sender
    · exact hI.voters_fin i
  · intro i
    rw [hsess i]
    split_ifs with hi
    · rw [hvo, htv, Set.ncard_insert_of_not_mem hmem (hI.voters_fin sid),
        hI.voters_card sid]
    · exact hI.voters_card i
  · intro i hi
    rw [hsc] at hi
    have hne : i ≠ sid := by omega
    rw [hsess i, if_neg hne]
    exact hI.high_clear i hi
  · intro i h1 h2
    rw [hsc] at h2
    rw [hsess i]
    split_ifs with hi
    · rw [hcr]; exact hI.low_created sid hsid1 hsid2
    · exact hI.low_created i h1 h2
  · intro i a hv
    rw [hsess i] at hv
    show st.registeredVoters a = true
    split_ifs at hv with hi
    · rw [hhv a] at hv
      split_ifs at hv with ha
      · rw [ha]; exact hreg
      · exact hI.voted_reg sid a hv
    · exact hI.voted_reg i a hv
  · intro i a
    show voteCastCount (st.events ++ [Event.VoteCast sid sender cid]) i a = _
    rw [voteCastCount_append, voteCastCount_single, hsess i]
    have hiso : isVoteCastFor i a (Event.VoteCast sid sender cid)
        = decide (sid = i ∧ sender = a) := rfl
    rw [hiso]
    by_cases hia : sid = i ∧ sender = a
    · obtain ⟨hi, ha⟩ := hia
      rw [← hi, ← ha]
      rw [hI.vc_count sid sender, hnv]
      simp [hhv sender]
    · have h0 : (decide (sid = i ∧ sender = a)) = false := by
        simpa using hia
      rw [h0]
      have hz : (if (false : Bool) = true then 1 else 0) = 0 := by simp
      rw [hz, Nat.add_zero]
      have hsame : (if i = sid then snew else st.votingSessions i).hasVoted a
          = (st.votingSessions i).hasVoted a := by
        split_ifs with hi
        · rw [hhv a]
          have ha : a ≠ sender := by
            intro hc
            exact hia ⟨hi.symm, hc.symm⟩
          rw [if_neg ha, hi]
        · rfl
      rw [hsame]
      exact hI.vc_count i a

lemma GInv_vote {sender now sid cid : Nat} {st st' : MultiSessionVotingSystem}
    (h : vote sender now sid cid st = .ok st') (hI : GInv st) : GInv st' := by
  obtain ⟨hs1, hs2, hcr, hreg, -, hnv, hc1, hc2, -, hst⟩ := vote_ok h
  subst hst
  refine GInv_vote_aux hI hs1 hs2 hnv hreg hc1 hc2 rfl rfl ?_ (fun a => rfl) rfl
  intro i h1 h2
  by_cases hc : i = cid <;> simp [hc]

lemma addCandidates_GInv {sender now sid : Nat} :
    ∀ (cnames : List String) {st st' : MultiSessionVotingSystem},
      addCandidates sender now sid cnames st = .ok st' → GInv st → GInv st'
  | [], st, st', h, hI => by
      unfold addCandidates at h
      have h2 : (Except.ok st : Except Err MultiSessionVotingSystem) = .ok st' := h
      rw [← Except.ok.inj h2]
      exact hI
  | nm :: rest, st, st', h, hI => by
      unfold addCandidates at h
      rw [List.foldlM_cons] at h
      cases hx : addCandidateToSession sender now sid nm st with
      | error e =>
          rw [hx] at h
          have h2 : (Except.error e : Except Err MultiSessionVotingSystem) = .ok st' := h
          exact Except.noConfusion h2
      | ok st1 =>
          rw [hx] at h
          have h2 : addCandidates sender now sid rest st1 = .ok st' := h
          exact addCandidates_GInv rest h2 (GInv_addCandidate hx hI)

/-- The reset of the freshly allocated session slot performed at the start
of `createSession` preserves the invariant. -/
lemma GInv_resetSlot {st : MultiSessionVotingSystem} {sname : String}
    {startT endT : Nat} (hI : GInv st) :
    GInv (({ st with sessionCount := st.sessionCount + 1 }).setSession (st.sessionCount + 1)
      { st.votingSessions (st.sessionCount + 1) with
        sessionId := st.sessionCount + 1, sessionName := sname, startTime := startT,
        endTime := endT, isActive := false, isCreated := true,
        candidateCount := 0, totalVotes := 0 }) := by
  set sc := st.sessionCount + 1 with hscdef
  set s0 : VotingSession := { st.votingSessions sc with
        sessionId := sc, sessionName := sname, startTime := startT,
        endTime := endT, isActive := false, isCreated := true,
        candidateCount := 0, totalVotes := 0 } with hs0def
  have hs0cc : s0.candidateCount = 0 := rfl
  have hs0tv : s0.totalVotes = 0 := rfl
  have hs0cr : s0.isCreated = true := rfl
  have hs0hv : ∀ a, s0.hasVoted a = (st.votingSessions sc).hasVoted a := fun _ => rfl
  have hsess : ∀ i, ((({ st with sessionCount := sc }).setSession sc s0).votingSessions i)
      = if i = sc then s0 else st.votingSessions i := fun _ => rfl
  have hsc2 : (({ st with sessionCount := sc }).setSession sc s0).sessionCount = sc := rfl
  have hev : (({ st with sessionCount := sc }).setSession sc s0).events = st.events := rfl
  have hclr := hI.high_clear sc (Or.inr (by omega))
  constructor
  · intro i
    rw [hsess i]
    split_ifs with hi
    · rw [hs0tv, sumVotes_of_cc_zero hs0cc]
    · exact hI.tv_sum i
  · intro i
    rw [hsess i]
    split_ifs with hi
    · rw [votersOf_empty (fun a => by rw [hs0hv a]; exact hclr.2 a)]
      exact Set.finite_empty
    · exact hI.voters_fin i
  · intro i
    rw [hsess i]
    split_ifs with hi
    · rw [votersOf_empty (fun a => by rw [hs0hv a]; exact hclr.2 a), Set.ncard_empty,
        hs0tv]
    · exact hI.voters_card i
  · intro i hi
    rw [hsc2] at hi
    have hne : i ≠ sc := by omega
    rw [hsess i, if_neg hne]
    exact hI.high_clear i (by omega)
  · intro i h1 h2
    rw [hsc2] at h2
    rw [hsess i]
    split_ifs with hi
    · exact hs0cr
    · exact hI.low_created i h1 (by omega)
  · intro i a hv
    rw [hsess i] at hv
    show st.registeredVoters a = true
    split_ifs at hv with hi
    · rw [hs0hv a, hclr.2 a] at hv
      exact Bool.noConfusion hv
    · exact hI.voted_reg i a hv
  · intro i a
    show voteCastCount st.events i a = _
    rw [hsess i]
    by_cases hi : i = sc
    · rw [if_pos hi, hs0hv a, hi]
      exact hI.vc_count sc a
    · rw [if_neg hi]
      exact hI.vc_count i a

lemma GInv_createSession {sender now : Nat} {sname : String} {startT endT : Nat}
    {cnames : List String} {st : MultiSessionVotingSystem}
    {p : MultiSessionVotingSystem × Nat}
    (h : createSession sender now sname startT endT cnames st = .ok p) (hI : GInv st) :
    GInv p.1 := by
  obtain ⟨-, -, -, -, -, st2, hfold, hp⟩ := createSession_ok h
  rw [hp]
  exact GInv_emit (addCandidates_GInv cnames hfold (GInv_resetSlot hI)) (fun i a => rfl)

lemma GInv_runOp {o : Op} {st st' : MultiSessionVotingSystem}
    (h : runOp o st = .ok st') (hI : GInv st) : GInv st' := by
  cases o with
  | opCreateSession sender now sname startT endT cnames =>
      unfold runOp at h
      dsimp only at h
      cases hx : createSession sender now sname startT endT cnames st with
      | error e =>
          rw [hx] at h
          exact Except.noConfusion h
      | ok pq =>
          rw [hx] at h
          have h2 : (Except.ok pq.1 : Except Err MultiSessionVotingSystem) = .ok st' := h
          rw [← Except.ok.inj h2]
          exact GInv_createSession hx hI
  | opAddCandidate sender now sid cname => exact GInv_addCandidate h hI
  | opUpdateCandidate sender now sid cid newName => exact GInv_updateCandidate h hI
  | opRemoveCandidate sender now sid cid => exact GInv_removeCandidate h hI
  | opStartSession sender now sid => exact GInv_startSession h hI
  | opEndSession sender sid => exact GInv_endSession h hI
  | opRegisterVoter sender voter => exact GInv_registerVoter h hI
  | opRegisterMany sender voters => exact GInv_registerMany h hI
  | opRegisterSelf sender => exact GInv_registerSelf h hI
  | opVote sender now sid cid => exact GInv_vote h hI

lemma GInv_stepOp (o : Op) {st : MultiSessionVotingSystem} (hI : GInv st) :
    GInv (stepOp o st) := by
  unfold stepOp
  cases hx : runOp o st with
  | error e => exact hI
  | ok st1 => exact GInv_runOp hx hI

lemma GInv_reachable {st : MultiSessionVotingSystem} (h : Reachable st) : GInv st := by
  induction h with
  | init d => exact GInv_init d
  | step o hst ih => exact GInv_stepOp o ih

/-- Frame description of a successful `addCandidates` run on session `sid`:
globals and other sessions untouched; on session `sid` only the candidate
collection grows, by the supplied names in order with sequential ids. -/
structure AddFrame (sid : Nat) (cnames : List String)
    (st st' : MultiSessionVotingSystem) : Prop where
  sc : st'.sessionCount = st.sessionCount
  own : st'.owner = st.owner
  reg : ∀ a, st'.registeredVoters a = st.registeredVoters a
  other : ∀ j, j ≠ sid → st'.votingSessions j = st.votingSessions j
  sname : (st'.votingSessions sid).sessionName = (st.votingSessions sid).sessionName
  stime : (st'.votingSessions sid).startTime = (st.votingSessions sid).startTime
  etime : (st'.votingSessions sid).endTime = (st.votingSessions sid).endTime
  act : (st'.votingSessions sid).isActive = (st.votingSessions sid).isActive
  crd : (st'.votingSessions sid).isCreated = (st.votingSessions sid).isCreated
  tv : (st'.votingSessions sid).totalVotes = (st.votingSessions sid).totalVotes
  hv : ∀ a, (st'.votingSessions sid).hasVoted a = (st.votingSessions sid).hasVoted a
  vch : ∀ a, (st'.votingSessions sid).voterChoice a
      = (st.votingSessions sid).voterChoice a
  cc : (st'.votingSessions sid).candidateCount
      = (st.votingSessions sid).candidateCount + cnames.length
  oldc : ∀ j, 1 ≤ j → j ≤ (st.votingSessions sid).candidateCount →
      (st'.votingSessions sid).candidates j = (st.votingSessions sid).candidates j
  newc : ∀ k (hk : k < cnames.length),
      (st'.votingSessions sid).candidates ((st.votingSessions sid).candidateCount + k + 1)
        = { id := (st.votingSessions sid).candidateCount + k + 1,
            name := cnames.get ⟨k, hk⟩, voteCount := 0, isActive := true }

lemma addCandidate_single_frame {sender now sid : Nat} {nm : String}
    {st st1 : MultiSessionVotingSystem}
    (hx : addCandidateToSession sender now sid nm st = .ok st1) :
    AddFrame sid [nm] st st1 := by
  obtain ⟨-, -, -, -, -, -, hst1⟩ := addCandidate_ok hx
  subst hst1
  refine { sc := rfl, own := rfl, reg := fun _ => rfl, other := ?_,
           sname := ?_, stime := ?_, etime := ?_, act := ?_, crd := ?_,
           tv := ?_, hv := fun _ => ?_, vch := fun _ => ?_, cc := ?_,
           oldc := ?_, newc := ?_ }
  · intro j hj
    simp [MultiSessionVotingSystem.setSession, MultiSessionVotingSystem.emit, hj]
  · simp [MultiSessionVotingSystem.setSession, MultiSessionVotingSystem.emit]
  · simp [MultiSessionVotingSystem.setSession, MultiSessionVotingSystem.emit]
  · simp [MultiSessionVotingSystem.setSession, MultiSessionVotingSystem.emit]
  · simp [MultiSessionVotingSystem.setSession, MultiSessionVotingSystem.emit]
  · simp [MultiSessionVotingSystem.setSession, MultiSessionVotingSystem.emit]
  · simp [MultiSessionVotingSystem.setSession, MultiSessionVotingSystem.emit]
  · simp [MultiSessionVotingSystem.setSession, MultiSessionVotingSystem.emit]
  · simp [MultiSessionVotingSystem.setSession, MultiSessionVotingSystem.emit]
  · simp [MultiSessionVotingSystem.setSession, MultiSessionVotingSystem.emit]
  · intro j h1 h2
    have hj : j ≠ (st.votingSessions sid).candidateCount + 1 := by omega
    simp [MultiSessionVotingSystem.setSession, MultiSessionVotingSystem.emit, hj]
  · intro k hk
    have hk0 : k = 0 := by
      simp at hk
      omega
    subst hk0
    simp [MultiSessionVotingSystem.setSession, MultiSessionVotingSystem.emit]

lemma AddFrame.comp {sid : Nat} {nm : String} {rest : List String}
    {st st1 st' : MultiSessionVotingSystem}
    (h1 : AddFrame sid [nm] st st1) (h2 : AddFrame sid rest st1 st') :
    AddFrame sid (nm :: rest) st st' := by
  have hcc1 : (st1.votingSessions sid).candidateCount
      = (st.votingSessions sid).candidateCount + 1 := by
    rw [h1.cc]
    rfl
  refine { sc := h2.sc.trans h1.sc, own := h2.own.trans h1.own,
           reg := fun a => (h2.reg a).trans (h1.reg a),
           other := fun j hj => (h2.other j hj).trans (h1.other j hj),
           sname := h2.sname.trans h1.sname, stime := h2.stime.trans h1.stime,
           etime := h2.etime.trans h1.etime, act := h2.act.trans h1.act,
           crd := h2.crd.trans h1.crd, tv := h2.tv.trans h1.tv,
           hv := fun a => (h2.hv a).trans (h1.hv a),
           vch := fun a => (h2.vch a).trans (h1.vch a), cc := ?_,
           oldc := ?_, newc := ?_ }
  · rw [h2.cc, hcc1]
    simp
    omega
  · intro j hj1 hj2
    have hj2' : j ≤ (st1.votingSessions sid).candidateCount := by omega
    exact (h2.oldc j hj1 hj2').trans (h1.oldc j hj1 hj2)
  · intro k hk
    cases k with
    | zero =>
        have h01 : 1 ≤ (st.votingSessions sid).candidateCount + 1 := by omega
        have h02 : (st.votingSessions sid).candidateCount + 1
            ≤ (st1.votingSessions sid).candidateCount := by omega
        have := (h2.oldc ((st.votingSessions sid).candidateCount + 1) h01 h02).trans
          (h1.newc 0 (by simp))
        exact this
    | succ k' =>
        have hk' : k' < rest.length := by
          simp at hk
          omega
        have hidx : (st.votingSessions sid).candidateCount + (k' + 1) + 1
            = (st1.votingSessions sid).candidateCount + k' + 1 := by omega
        rw [hidx]
        exact h2.newc k' hk'

lemma addCandidates_frame {sender now sid : Nat} :
    ∀ (cnames : List String) {st st' : MultiSessionVotingSystem},
      addCandidates sender now sid cnames st = .ok st' → AddFrame sid cnames st st'
  | [], st, st', h => by
      unfold addCandidates at h
      have h2 : (Except.ok st : Except Err MultiSessionVotingSystem) = .ok st' := h
      rw [← Except.ok.inj h2]
      exact { sc := rfl, own := rfl, reg := fun _ => rfl, other := fun _ _ => rfl,
              sname := rfl, stime := rfl, etime := rfl, act := rfl, crd := rfl,
              tv := rfl, hv := fun _ => rfl, vch := fun _ => rfl, cc := rfl,
              oldc := fun _ _ _ => rfl,
              newc := fun k hk => absurd hk (Nat.not_lt_zero k) }
  | nm :: rest, st, st', h => by
      unfold addCandidates at h
      rw [List.foldlM_cons] at h
      cases hx : addCandidateToSession sender now sid nm st with
      | error e =>
          rw [hx] at h
          have h2 : (Except.error e : Except Err MultiSessionVotingSystem) = .ok st' := h
          exact Except.noConfusion h2
      | ok st1 =>
          rw [hx] at h
          have h2 : addCandidates sender now sid rest st1 = .ok st' := h
          exact (addCandidate_single_frame hx).comp (addCandidates_frame rest h2)

lemma setSession_sessions (st : MultiSessionVotingSystem) (sid : Nat)
    (s : VotingSession) (j : Nat) :
    ((st.setSession sid s).votingSessions j) = if j = sid then s else st.votingSessions j :=
  rfl

lemma emit_sessions (st : MultiSessionVotingSystem) (e : Event) (j : Nat) :
    ((st.emit e).votingSessions j) = st.votingSessions j := rfl

lemma regStep_sessions (st : MultiSessionVotingSystem) (v j : Nat) :
    ((regStep st v).votingSessions j) = st.votingSessions j := by
  unfold regStep
  split_ifs <;> rfl

lemma regStep_sessionCount (st : MultiSessionVotingSystem) (v : Nat) :
    (regStep st v).sessionCount = st.sessionCount := by
  unfold regStep
  split_ifs <;> rfl

lemma foldRegStep_sessions : ∀ (voters : List Nat) (st : MultiSessionVotingSystem) (j : Nat),
    ((voters.foldl regStep st).votingSessions j) = st.votingSessions j
  | [], _, _ => rfl
  | v :: vs, st, j =>
      (foldRegStep_sessions vs (regStep st v) j).trans (regStep_sessions st v j)

lemma foldRegStep_sessionCount : ∀ (voters : List Nat) (st : MultiSessionVotingSystem),
    (voters.foldl regStep st).sessionCount = st.sessionCount
  | [], _ => rfl
  | v :: vs, st =>
      (foldRegStep_sessionCount vs (regStep st v)).trans (regStep_sessionCount st v)

/-- Successful `createSession` inverted through `runOp`. -/
lemma runOp_createSession_ok {sender now : Nat} {sname : String} {startT endT : Nat}
    {cnames : List String} {st st1 : MultiSessionVotingSystem}
    (hx : runOp (Op.opCreateSession sender now sname startT endT cnames) st = .ok st1) :
    ∃ p : MultiSessionVotingSystem × Nat,
      createSession sender now sname startT endT cnames st = .ok p ∧ p.1 = st1 := by
  unfold runOp at hx
  dsimp only at hx
  cases hy : createSession sender now sname startT endT cnames st with
  | error e => rw [hy] at hx; exact Except.noConfusion hx
  | ok p => rw [hy] at hx; exact ⟨p, rfl, Except.ok.inj hx⟩

/-- A slot update that keeps the voter record of the written slot keeps the
voter record of every slot. -/
lemma hv_frame {st : MultiSessionVotingSystem} {s2 : Nat} {snew : VotingSession}
    {e : Event} (sid a : Nat)
    (h1 : ∀ b, snew.hasVoted b = (st.votingSessions s2).hasVoted b)
    (h2 : ∀ b, snew.voterChoice b = (st.votingSessions s2).voterChoice b) :
    (((st.setSession s2 snew).emit e).votingSessions sid).hasVoted a
      = (st.votingSessions sid).hasVoted a ∧
    (((st.setSession s2 snew).emit e).votingSessions sid).voterChoice a
      = (st.votingSessions sid).voterChoice a := by
  rw [emit_sessions, setSession_sessions]
  by_cases hi : sid = s2
  · rw [if_pos hi, hi]
    exact ⟨h1 a, h2 a⟩
  · rw [if_neg hi]
    exact ⟨rfl, rfl⟩

/-- One committed call never clears a recorded `hasVoted` flag and never
rewrites a recorded `voterChoice`. -/
lemma stepOp_vote_record_persist (o : Op) {st : MultiSessionVotingSystem} {sid a : Nat}
    (hI : GInv st) (hv : (st.votingSessions sid).hasVoted a = true) :
    ((stepOp o st).votingSessions sid).hasVoted a = true ∧
    ((stepOp o st).votingSessions sid).voterChoice a
      = (st.votingSessions sid).voterChoice a := by
  have hstep : stepOp o st = (match runOp o st with
      | .ok st' => st'
      | .error _ => st) := rfl
  cases hx : runOp o st with
  | error e =>
      rw [hstep, hx]
      exact ⟨hv, rfl⟩
  | ok st1 =>
      rw [hstep, hx]
      cases o with
      | opCreateSession sender now sname startT endT cnames =>
          obtain ⟨p, hy, hp1⟩ := runOp_createSession_ok hx
          obtain ⟨-, -, -, -, -, st2, hfold, hp⟩ := createSession_ok hy
          have hf := addCandidates_frame cnames hfold
          rw [← hp1, hp]
          rw [emit_sessions]
          by_cases hj : sid = st.sessionCount + 1
          · subst hj
            constructor
            · rw [hf.hv a]
              rw [setSession_sessions, if_pos rfl]
              exact hv
            · rw [hf.vch a]
              rw [setSession_sessions, if_pos rfl]
          · constructor
            · rw [hf.other sid hj, setSession_sessions, if_neg hj]
              exact hv
            · rw [hf.other sid hj, setSession_sessions, if_neg hj]
      | opAddCandidate sender now s2 cname =>
          obtain ⟨-, -, -, -, -, -, hst⟩ := addCandidate_ok hx
          subst hst
          rw [emit_sessions, setSession_sessions]
          by_cases hj : sid = s2
          · rw [if_pos hj]
            constructor
            · show (st.votingSessions s2).hasVoted a = true
              rw [← hj]
              exact hv
            · show (st.votingSessions s2).voterChoice a = (st.votingSessions sid).voterChoice a
              rw [hj]
          · rw [if_neg hj]
            exact ⟨hv, rfl⟩
      | opUpdateCandidate sender now s2 cid newName =>
          obtain ⟨-, -, -, -, -, -, -, -, -, hst⟩ := updateCandidate_ok hx
          subst hst
          rw [emit_sessions, setSession_sessions]
          by_cases hj : sid = s2
          · rw [if_pos hj]
            constructor
            · show (st.votingSessions s2).hasVoted a = true
              rw [← hj]
              exact hv
            · show (st.votingSessions s2).voterChoice a = (st.votingSessions sid).voterChoice a
              rw [hj]
          · rw [if_neg hj]
            exact ⟨hv, rfl⟩
      | opRemoveCandidate sender now s2 cid =>
          obtain ⟨-, -, -, -, -, -, -, -, hst⟩ := removeCandidate_ok hx
          subst hst
          rw [emit_sessions, setSession_sessions]
          by_cases hj : sid = s2
          · rw [if_pos hj]
            constructor
            · show (st.votingSessions s2).hasVoted a = true
              rw [← hj]
              exact hv
            · show (st.votingSessions s2).voterChoice a = (st.votingSessions sid).voterChoice a
              rw [hj]
          · rw [if_neg hj]
            exact ⟨hv, rfl⟩
      | opStartSession sender now s2 =>
          obtain ⟨-, -, -, -, -, -, -, hst⟩ := startSession_ok hx
          subst hst
          rw [emit_sessions, setSession_sessions]
          by_cases hj : sid = s2
          · rw [if_pos hj]
            constructor
            · show (st.votingSessions s2).hasVoted a = true
              rw [← hj]
              exact hv
            · show (st.votingSessions s2).voterChoice a = (st.votingSessions sid).voterChoice a
              rw [hj]
          · rw [if_neg hj]
            exact ⟨hv, rfl⟩
      | opEndSession sender s2 =>
          obtain ⟨-, -, -, -, -, hst⟩ := endSession_ok hx
          subst hst
          rw [emit_sessions, setSession_sessions]
          by_cases hj : sid = s2
          · rw [if_pos hj]
            constructor
            · show (st.votingSessions s2).hasVoted a = true
              rw [← hj]
              exact hv
            · show (st.votingSessions s2).voterChoice a = (st.votingSessions sid).voterChoice a
              rw [hj]
          · rw [if_neg hj]
            exact ⟨hv, rfl⟩
      | opRegisterVoter sender voter =>
          obtain ⟨-, -, -, hst⟩ := registerVoter_ok hx
          subst hst
          exact ⟨hv, rfl⟩
      | opRegisterMany sender voters =>
          obtain ⟨-, hst⟩ := registerMany_ok hx
          subst hst
          rw [foldRegStep_sessions]
          exact ⟨hv, rfl⟩
      | opRegisterSelf sender =>
          obtain ⟨-, hst⟩ := registerSelf_ok hx
          subst hst
          exact ⟨hv, rfl⟩
      | opVote sender now s2 cid =>
          obtain ⟨-, -, -, -, -, hnv, -, -, -, hst⟩ := vote_ok hx
          subst hst
          rw [emit_sessions, setSession_sessions]
          by_cases hj : sid = s2
          · have hanot : a ≠ sender := by
              intro hc
              rw [hj, hc] at hv
              rw [hv] at hnv
              exact Bool.noConfusion hnv
            rw [if_pos hj]
            constructor
            · show (if a = sender then true else (st.votingSessions s2).hasVoted a) = true
              rw [if_neg hanot, ← hj]
              exact hv
            · show (if a = sender then cid else (st.votingSessions s2).voterChoice a) = _
              rw [if_neg hanot, hj]
          · rw [if_neg hj]
            exact ⟨hv, rfl⟩

lemma Reachable_runOps {st : MultiSessionVotingSystem} (hR : Reachable st) :
    ∀ ops : List Op, Reachable (runOps st ops) := by
  intro ops
  induction ops generalizing st with
  | nil => exact hR
  | cons o rest ih =>
      exact ih (Reachable.step o hR)

/-- Any sequence of committed calls preserves a recorded `hasVoted` flag
and the recorded `voterChoice`. -/
lemma runOps_vote_record_persist (ops : List Op) {st : MultiSessionVotingSystem}
    {sid a : Nat} (hR : Reachable st)
    (hv : (st.votingSessions sid).hasVoted a = true) :
    ((runOps st ops).votingSessions sid).hasVoted a = true ∧
    ((runOps st ops).votingSessions sid).voterChoice a
      = (st.votingSessions sid).voterChoice a := by
  induction ops generalizing st with
  | nil => exact ⟨hv, rfl⟩
  | cons o rest ih =>
      have h1 := stepOp_vote_record_persist o (GInv_reachable hR) hv
      have h2 := ih (Reachable.step o hR) h1.1
      exact ⟨h2.1, h2.2.trans h1.2⟩

/-- One committed call keeps an allocated session allocated, never shrinks
its candidate collection, and never alters a deactivated candidate's
record. -/
lemma stepOp_candidate_persist (o : Op) {st : MultiSessionVotingSystem} {sid cid : Nat}
    (hsid1 : 1 ≤ sid) (hsid2 : sid ≤ st.sessionCount)
    (hcid1 : 1 ≤ cid) (hcid2 : cid ≤ (st.votingSessions sid).candidateCount)
    (hinact : ((st.votingSessions sid).candidates cid).isActive = false) :
    sid ≤ (stepOp o st).sessionCount ∧
    cid ≤ ((stepOp o st).votingSessions sid).candidateCount ∧
    ((stepOp o st).votingSessions sid).candidates cid
      = (st.votingSessions sid).candidates cid := by
  have hstep : stepOp o st = (match runOp o st with
      | .ok st' => st'
      | .error _ => st) := rfl
  cases hx : runOp o st with
  | error e =>
      rw [hstep, hx]
      exact ⟨hsid2, hcid2, rfl⟩
  | ok st1 =>
      rw [hstep, hx]
      cases o with
      | opCreateSession sender now sname startT endT cnames =>
          obtain ⟨p, hy, hp1⟩ := runOp_createSession_ok hx
          obtain ⟨-, -, -, -, -, st2, hfold, hp⟩ := createSession_ok hy
          have hf := addCandidates_frame cnames hfold
          rw [← hp1, hp, emit_sessions]
          have hne : sid ≠ st.sessionCount + 1 := by omega
          have hother := hf.other sid hne
          rw [hother, setSession_sessions, if_neg hne]
          refine ⟨?_, hcid2, rfl⟩
          show sid ≤ st2.sessionCount
          rw [hf.sc]
          show sid ≤ st.sessionCount + 1
          omega
      | opAddCandidate sender now s2 cname =>
          obtain ⟨-, -, -, -, -, -, hst⟩ := addCandidate_ok hx
          subst hst
          rw [emit_sessions, setSession_sessions]
          by_cases hj : sid = s2
          · have hcc : (st.votingSessions s2).candidateCount
                = (st.votingSessions sid).candidateCount := by rw [hj]
            have hne2 : cid ≠ (st.votingSessions s2).candidateCount + 1 := by omega
            rw [if_pos hj]
            refine ⟨hsid2, ?_, ?_⟩
            · show cid ≤ (st.votingSessions s2).candidateCount + 1
              omega
            · show (if cid = (st.votingSessions s2).candidateCount + 1 then
                  { id := (st.votingSessions s2).candidateCount + 1, name := cname,
                    voteCount := 0, isActive := true }
                else (st.votingSessions s2).candidates cid)
                  = (st.votingSessions sid).candidates cid
              rw [if_neg hne2, hj]
          · rw [if_neg hj]
            exact ⟨hsid2, hcid2, rfl⟩
      | opUpdateCandidate sender now s2 c2 newName =>
          obtain ⟨-, -, -, -, -, -, -, -, hc2act, hst⟩ := updateCandidate_ok hx
          subst hst
          rw [emit_sessions, setSession_sessions]
          by_cases hj : sid = s2
          · have hnec : cid ≠ c2 := by
              intro hc
              rw [← hj, ← hc] at hc2act
              rw [hinact] at hc2act
              exact Bool.noConfusion hc2act
            rw [if_pos hj]
            refine ⟨hsid2, ?_, ?_⟩
            · show cid ≤ (st.votingSessions s2).candidateCount
              rw [← hj]
              exact hcid2
            · show (if cid = c2 then
                  { (st.votingSessions s2).candidates c2 with name := newName }
                else (st.votingSessions s2).candidates cid)
                  = (st.votingSessions sid).candidates cid
              rw [if_neg hnec, hj]
          · rw [if_neg hj]
            exact ⟨hsid2, hcid2, rfl⟩
      | opRemoveCandidate sender now s2 c2 =>
          obtain ⟨-, -, -, -, -, -, -, hc2act, hst⟩ := removeCandidate_ok hx
          subst hst
          rw [emit_sessions, setSession_sessions]
          by_cases hj : sid = s2
          · have hnec : cid ≠ c2 := by
              intro hc
              rw [← hj, ← hc] at hc2act
              rw [hinact] at hc2act
              exact Bool.noConfusion hc2act
            rw [if_pos hj]
            refine ⟨hsid2, ?_, ?_⟩
            · show cid ≤ (st.votingSessions s2).candidateCount
              rw [← hj]
              exact hcid2
            · show (if cid = c2 then
                  { (st.votingSessions s2).candidates c2 with isActive := false }
                else (st.votingSessions s2).candidates cid)
                  = (st.votingSessions sid).candidates cid
              rw [if_neg hnec, hj]
          · rw [if_neg hj]
            exact ⟨hsid2, hcid2, rfl⟩
      | opStartSession sender now s2 =>
          obtain ⟨-, -, -, -, -, -, -, hst⟩ := startSession_ok hx
          subst hst
          rw [emit_sessions, setSession_sessions]
          by_cases hj : sid = s2
          · rw [if_pos hj]
            refine ⟨hsid2, ?_, ?_⟩
            · show cid ≤ (st.votingSessions s2).candidateCount
              rw [← hj]
              exact hcid2
            · show (st.votingSessions s2).candidates cid
                = (st.votingSessions sid).candidates cid
              rw [hj]
          · rw [if_neg hj]
            exact ⟨hsid2, hcid2, rfl⟩
      | opEndSession sender s2 =>
          obtain ⟨-, -, -, -, -, hst⟩ := endSession_ok hx
          subst hst
          rw [emit_sessions, setSession_sessions]
          by_cases hj : sid = s2
          · rw [if_pos hj]
            refine ⟨hsid2, ?_, ?_⟩
            · show cid ≤ (st.votingSessions s2).candidateCount
              rw [← hj]
              exact hcid2
            · show (st.votingSessions s2).candidates cid
                = (st.votingSessions sid).candidates cid
              rw [hj]
          · rw [if_neg hj]
            exact ⟨hsid2, hcid2, rfl⟩
      | opRegisterVoter sender voter =>
          obtain ⟨-, -, -, hst⟩ := registerVoter_ok hx
          subst hst
          exact ⟨hsid2, hcid2, rfl⟩
      | opRegisterMany sender voters =>
          obtain ⟨-, hst⟩ := registerMany_ok hx
          subst hst
          rw [foldRegStep_sessions, foldRegStep_sessionCount]
          exact ⟨hsid2, hcid2, rfl⟩
      | opRegisterSelf sender =>
          obtain ⟨-, hst⟩ := registerSelf_ok hx
          subst hst
          exact ⟨hsid2, hcid2, rfl⟩
      | opVote sender now s2 c2 =>
          obtain ⟨-, -, -, -, -, -, -, -, hc2act, hst⟩ := vote_ok hx
          subst hst
          rw [emit_sessions, setSession_sessions]
          by_cases hj : sid = s2
          · have hnec : cid ≠ c2 := by
              intro hc
              rw [← hj, ← hc] at hc2act
              rw [hinact] at hc2act
              exact Bool.noConfusion hc2act
            rw [if_pos hj]
            refine ⟨hsid2, ?_, ?_⟩
            · show cid ≤ (st.votingSessions s2).candidateCount
              rw [← hj]
              exact hcid2
            · show (if cid = c2 then
                  { (st.votingSessions s2).candidates c2 with
                    voteCount := ((st.votingSessions s2).candidates c2).voteCount + 1 }
                else (st.votingSessions s2).candidates cid)
                  = (st.votingSessions sid).candidates cid
              rw [if_neg hnec, hj]
          · rw [if_neg hj]
            exact ⟨hsid2, hcid2, rfl⟩

/-- Deactivation is permanent: across any sequence of committed calls a
deactivated candidate's record (id, name, vote count, inactive flag) is
never altered, and its session and id stay allocated. -/
lemma runOps_candidate_persist (ops : List Op) {st : MultiSessionVotingSystem}
    {sid cid : Nat}
    (hsid1 : 1 ≤ sid) (hsid2 : sid ≤ st.sessionCount)
    (hcid1 : 1 ≤ cid) (hcid2 : cid ≤ (st.votingSessions sid).candidateCount)
    (hinact : ((st.votingSessions sid).candidates cid).isActive = false) :
    sid ≤ (runOps st ops).sessionCount ∧
    cid ≤ ((runOps st ops).votingSessions sid).candidateCount ∧
    ((runOps st ops).votingSessions sid).candidates cid
      = (st.votingSessions sid).candidates cid := by
  induction ops generalizing st with
  | nil => exact ⟨hsid2, hcid2, rfl⟩
  | cons o rest ih =>
      have h1 := stepOp_candidate_persist o hsid1 hsid2 hcid1 hcid2 hinact
      have hinact2 : (((stepOp o st).votingSessions sid).candidates cid).isActive = false := by
        rw [h1.2.2]
        exact hinact
      have h2 := ih h1.1 h1.2.1 hinact2
      exact ⟨h2.1, h2.2.1, h2.2.2.trans h1.2.2⟩

lemma vote_never_ok_inactive {sender now sid cid : Nat}
    {st st2 : MultiSessionVotingSystem}
    (hinact : ((st.votingSessions sid).candidates cid).isActive = false) :
    vote sender now sid cid st ≠ .ok st2 := by
  intro h
  obtain ⟨-, -, -, -, -, -, -, -, hact, -⟩ := vote_ok h
  rw [hinact] at hact
  exact Bool.noConfusion hact

lemma vote_inactive_validation {sender now sid cid : Nat}
    {st : MultiSessionVotingSystem}
    (hsid1 : 1 ≤ sid) (hsid2 : sid ≤ st.sessionCount)
    (hcr : (st.votingSessions sid).isCreated = true)
    (hreg : st.registeredVoters sender = true)
    (hact : isSessionActive now st sid = true)
    (hnv : (st.votingSessions sid).hasVoted sender = false)
    (hcid1 : 1 ≤ cid) (hcid2 : cid ≤ (st.votingSessions sid).candidateCount)
    (hinact : ((st.votingSessions sid).candidates cid).isActive = false) :
    vote sender now sid cid st = .error (Err.ValidationError ("Candidate not active")) := by
  unfold vote
  rw [if_neg (not_not_intro ⟨hsid1, hsid2⟩), if_neg (not_not_intro hcr),
    if_neg (not_not_intro hreg), if_neg (not_not_intro hact)]
  dsimp only
  rw [if_neg (by simp [hnv]), if_neg (not_not_intro ⟨hcid1, hcid2⟩),
    if_pos (by simp [hinact])]

lemma vote_already_voted_state_error (cid : Nat) {sender now sid : Nat}
    {st : MultiSessionVotingSystem}
    (hsid1 : 1 ≤ sid) (hsid2 : sid ≤ st.sessionCount)
    (hcr : (st.votingSessions sid).isCreated = true)
    (hreg : st.registeredVoters sender = true)
    (hv : (st.votingSessions sid).hasVoted sender = true) :
    ∃ m, vote sender now sid cid st = .error (Err.StateError m) := by
  unfold vote
  rw [if_neg (not_not_intro ⟨hsid1, hsid2⟩), if_neg (not_not_intro hcr),
    if_neg (not_not_intro hreg)]
  by_cases hact : isSessionActive now st sid = true
  · rw [if_neg (not_not_intro hact)]
    dsimp only
    rw [if_pos hv]
    exact ⟨("Already voted in this session"), rfl⟩
  · rw [if_pos (by simpa using hact)]
    exact ⟨("Session not active"), rfl⟩

lemma countEqA_eq_zero {s : VotingSession} {n m : Nat}
    (h : ∀ i, 1 ≤ i → i ≤ n → (s.candidates i).isActive = true →
      (s.candidates i).voteCount ≠ m) :
    countEqA s n m = 0 := by
  induction n with
  | zero => rfl
  | succ k ih =>
      have h1 := ih (fun i hi1 hi2 hi3 => h i hi1 (by omega) hi3)
      have hc : ¬((s.candidates (k + 1)).isActive = true ∧
          (s.candidates (k + 1)).voteCount = m) := by
        rintro ⟨ha, hcnt⟩
        exact h (k + 1) (by omega) (by omega) ha hcnt
      unfold countEqA
      rw [h1, if_neg hc]

lemma countEqA_pos {s : VotingSession} {n m i : Nat}
    (h1 : 1 ≤ i) (h2 : i ≤ n) (ha : (s.candidates i).isActive = true)
    (hc : (s.candidates i).voteCount = m) :
    1 ≤ countEqA s n m := by
  induction n with
  | zero => omega
  | succ k ih =>
      by_cases hik : i = k + 1
      · have hcond : (s.candidates (k + 1)).isActive = true ∧
            (s.candidates (k + 1)).voteCount = m := by
          rw [← hik]; exact ⟨ha, hc⟩
        unfold countEqA
        rw [if_pos hcond]
        omega
      · have hle := ih (by omega)
        unfold countEqA
        split_ifs <;> omega

lemma countEqA_exists_witness {s : VotingSession} {n m : Nat}
    (h : 1 ≤ countEqA s n m) :
    ∃ i, 1 ≤ i ∧ i ≤ n ∧ (s.candidates i).isActive = true ∧
      (s.candidates i).voteCount = m := by
  induction n with
  | zero =>
      have h0 : countEqA s 0 m = 0 := rfl
      omega
  | succ k ih =>
      by_cases hcond : (s.candidates (k + 1)).isActive = true ∧
          (s.candidates (k + 1)).voteCount = m
      · exact ⟨k + 1, by omega, by omega, hcond.1, hcond.2⟩
      · unfold countEqA at h
        rw [if_neg hcond] at h
        obtain ⟨i, hi1, hi2, hi3, hi4⟩ := ih (by omega)
        exact ⟨i, hi1, by omega, hi3, hi4⟩

lemma countEqA_two_witnesses {s : VotingSession} {n m i j : Nat}
    (hij : i ≠ j)
    (hi1 : 1 ≤ i) (hi2 : i ≤ n) (hia : (s.candidates i).isActive = true)
    (hic : (s.candidates i).voteCount = m)
    (hj1 : 1 ≤ j) (hj2 : j ≤ n) (hja : (s.candidates j).isActive = true)
    (hjc : (s.candidates j).voteCount = m) :
    2 ≤ countEqA s n m := by
  induction n with
  | zero => omega
  | succ k ih =>
      by_cases hik : i = k + 1
      · have hjk : j ≤ k := by omega
        have hpos := countEqA_pos hj1 hjk hja hjc
        have hcond : (s.candidates (k + 1)).isActive = true ∧
            (s.candidates (k + 1)).voteCount = m := by
          rw [← hik]; exact ⟨hia, hic⟩
        unfold countEqA
        rw [if_pos hcond]
        omega
      · by_cases hjk : j = k + 1
        · have hik2 : i ≤ k := by omega
          have hpos := countEqA_pos hi1 hik2 hia hic
          have hcond : (s.candidates (k + 1)).isActive = true ∧
              (s.candidates (k + 1)).voteCount = m := by
            rw [← hjk]; exact ⟨hja, hjc⟩
          unfold countEqA
          rw [if_pos hcond]
          omega
        · have hle := ih (by omega) (by omega)
          unfold countEqA
          split_ifs <;> omega

lemma countEqA_two_exists_other {s : VotingSession} {n m w : Nat}
    (h : 2 ≤ countEqA s n m) :
    ∃ j, 1 ≤ j ∧ j ≤ n ∧ j ≠ w ∧ (s.candidates j).isActive = true ∧
      (s.candidates j).voteCount = m := by
  induction n with
  | zero =>
      have h0 : countEqA s 0 m = 0 := rfl
      omega
  | succ k ih =>
      by_cases hcond : (s.candidates (k + 1)).isActive = true ∧
          (s.candidates (k + 1)).voteCount = m
      · by_cases hw : k + 1 = w
        · have hk : 1 ≤ countEqA s k m := by
            unfold countEqA at h
            rw [if_pos hcond] at h
            omega
          obtain ⟨i, hi1, hi2, hi3, hi4⟩ := countEqA_exists_witness hk
          exact ⟨i, hi1, by omega, by omega, hi3, hi4⟩
        · exact ⟨k + 1, by omega, by omega, hw, hcond.1, hcond.2⟩
      · unfold countEqA at h
        rw [if_neg hcond] at h
        obtain ⟨j, h1, h2, h3, h4, h5⟩ := ih h
        exact ⟨j, h1, by omega, h3, h4, h5⟩

/-- Loop invariant of the winner scan: either no active candidate seen so
far has a positive count and the accumulator is still `(0, 0, 0)`, or the
accumulator holds the positive running maximum, the first (lowest-id)
active candidate attaining it, and the number of active candidates
attaining it. -/
lemma tallyAux_spec (s : VotingSession) (n : Nat) :
    (tallyAux s n = (0, 0, 0) ∧
      ∀ i, 1 ≤ i → i ≤ n → (s.candidates i).isActive = true →
        (s.candidates i).voteCount = 0)
    ∨ (1 ≤ (tallyAux s n).2.1 ∧ (tallyAux s n).2.1 ≤ n ∧
       (s.candidates (tallyAux s n).2.1).isActive = true ∧
       (s.candidates (tallyAux s n).2.1).voteCount = (tallyAux s n).1 ∧
       0 < (tallyAux s n).1 ∧
       (∀ i, 1 ≤ i → i ≤ n → (s.candidates i).isActive = true →
          (s.candidates i).voteCount ≤ (tallyAux s n).1) ∧
       (∀ i, 1 ≤ i → i ≤ n → (s.candidates i).isActive = true →
          (s.candidates i).voteCount = (tallyAux s n).1 → (tallyAux s n).2.1 ≤ i) ∧
       (tallyAux s n).2.2 = countEqA s n (tallyAux s n).1) := by
  induction n with
  | zero =>
      left
      exact ⟨rfl, fun i h1 h2 _ => by omega⟩
  | succ k ih =>
      have hstep : tallyAux s (k + 1) = tallyStep s (tallyAux s k) (k + 1) := rfl
      rcases ih with ⟨hz, hall⟩ | ⟨hw1, hw2, hwa, hwc, hM, hmax, hleast, ht⟩
      · by_cases hact : (s.candidates (k + 1)).isActive = true
        · by_cases hpos : 0 < (s.candidates (k + 1)).voteCount
          · have hres : tallyAux s (k + 1) = ((s.candidates (k + 1)).voteCount, k + 1, 1) := by
              rw [hstep, hz]
              unfold tallyStep
              rw [if_pos hact]
              dsimp only
              rw [if_pos hpos]
            right
            rw [hres]
            dsimp only
            refine ⟨by omega, le_refl _, hact, rfl, hpos, ?_, ?_, ?_⟩
            · intro i h1 h2 h3
              by_cases hik : i = k + 1
              · rw [hik]
              · have := hall i h1 (by omega) h3
                omega
            · intro i h1 h2 h3 h4
              by_cases hik : i = k + 1
              · omega
              · have := hall i h1 (by omega) h3
                omega
            · have hzero : countEqA s k (s.candidates (k + 1)).voteCount = 0 := by
                refine countEqA_eq_zero ?_
                intro i h1 h2 h3
                have := hall i h1 h2 h3
                omega
              unfold countEqA
              rw [hzero, if_pos ⟨hact, rfl⟩]
          · have hres : tallyAux s (k + 1) = (0, 0, 0) := by
              rw [hstep, hz]
              unfold tallyStep
              rw [if_pos hact]
              dsimp only
              rw [if_neg (by omega), if_neg (by rintro ⟨-, hc⟩; omega)]
            left
            refine ⟨hres, ?_⟩
            intro i h1 h2 h3
            by_cases hik : i = k + 1
            · rw [hik]; omega
            · exact hall i h1 (by omega) h3
        · have hres : tallyAux s (k + 1) = (0, 0, 0) := by
            rw [hstep, hz]
            unfold tallyStep
            rw [if_neg hact]
          left
          refine ⟨hres, ?_⟩
          intro i h1 h2 h3
          by_cases hik : i = k + 1
          · rw [hik] at h3
            exact absurd h3 hact
          · exact hall i h1 (by omega) h3
      · by_cases hact : (s.candidates (k + 1)).isActive = true
        · by_cases hlt : (tallyAux s k).1 < (s.candidates (k + 1)).voteCount
          · have hres : tallyAux s (k + 1) = ((s.candidates (k + 1)).voteCount, k + 1, 1) := by
              rw [hstep]
              unfold tallyStep
              rw [if_pos hact]
              rw [if_pos hlt]
            right
            rw [hres]
            dsimp only
            refine ⟨by omega, le_refl _, hact, rfl, by omega, ?_, ?_, ?_⟩
            · intro i h1 h2 h3
              by_cases hik : i = k + 1
              · rw [hik]
              · have := hmax i h1 (by omega) h3
                omega
            · intro i h1 h2 h3 h4
              by_cases hik : i = k + 1
              · omega
              · have := hmax i h1 (by omega) h3
                omega
            · have hzero : countEqA s k (s.candidates (k + 1)).voteCount = 0 := by
                refine countEqA_eq_zero ?_
                intro i h1 h2 h3
                have := hmax i h1 h2 h3
                omega
              unfold countEqA
              rw [hzero, if_pos ⟨hact, rfl⟩]
          · by_cases heq : (s.candidates (k + 1)).voteCount = (tallyAux s k).1
            · have hres : tallyAux s (k + 1)
                  = ((tallyAux s k).1, (tallyAux s k).2.1, (tallyAux s k).2.2 + 1) := by
                rw [hstep]
                unfold tallyStep
                rw [if_pos hact]
                rw [if_neg hlt, if_pos ⟨heq, hM⟩]
              right
              rw [hres]
              dsimp only
              refine ⟨hw1, by omega, hwa, hwc, hM, ?_, ?_, ?_⟩
              · intro i h1 h2 h3
                by_cases hik : i = k + 1
                · rw [hik]; omega
                · exact hmax i h1 (by omega) h3
              · intro i h1 h2 h3 h4
                by_cases hik : i = k + 1
                · omega
                · exact hleast i h1 (by omega) h3 h4
              · unfold countEqA
                rw [← ht, if_pos ⟨hact, heq⟩]
            · have hres : tallyAux s (k + 1) = tallyAux s k := by
                rw [hstep]
                unfold tallyStep
                rw [if_pos hact]
                rw [if_neg hlt, if_neg (by rintro ⟨hc, -⟩; exact heq hc)]
              right
              rw [hres]
              refine ⟨hw1, by omega, hwa, hwc, hM, ?_, ?_, ?_⟩
              · intro i h1 h2 h3
                by_cases hik : i = k + 1
                · rw [hik]; omega
                · exact hmax i h1 (by omega) h3
              · intro i h1 h2 h3 h4
                by_cases hik : i = k + 1
                · rw [hik] at h4
                  exact absurd h4 heq
                · exact hleast i h1 (by omega) h3 h4
              · unfold countEqA
                rw [← ht, if_neg (by rintro ⟨-, hc⟩; exact heq hc)]
                omega
        · have hres : tallyAux s (k + 1) = tallyAux s k := by
            rw [hstep]
            unfold tallyStep
            rw [if_neg hact]
          right
          rw [hres]
          refine ⟨hw1, by omega, hwa, hwc, hM, ?_, ?_, ?_⟩
          · intro i h1 h2 h3
            by_cases hik : i = k + 1
            · rw [hik] at h3
              exact absurd h3 hact
            · exact hmax i h1 (by omega) h3
          · intro i h1 h2 h3 h4
            by_cases hik : i = k + 1
            · rw [hik] at h3
              exact absurd h3 hact
            · exact hleast i h1 (by omega) h3 h4
          · unfold countEqA
            rw [← ht, if_neg (by rintro ⟨hc, -⟩; exact hact hc)]
            omega

lemma isSessionActive_created {now : Nat} {st : MultiSessionVotingSystem} {sid : Nat}
    (h : isSessionActive now st sid = true) :
    1 ≤ sid ∧ sid ≤ st.sessionCount ∧ (st.votingSessions sid).isCreated = true ∧
    (st.votingSessions sid).isActive = true := by
  unfold isSessionActive at h
  dsimp only at h
  split_ifs at h with h1 h2
  push_neg at h1 h2
  exact ⟨by omega, by omega, h2.1, h2.2⟩

/-- Deployed state with owner `1`. -/
def stInit : MultiSessionVotingSystem := initState 1

/-- After the owner creates session 1 "Council", window `[10, 100]`,
candidates Alice (id 1) and Bob (id 2). -/
def stA : MultiSessionVotingSystem :=
  stepOp (Op.opCreateSession 1 0 ("Council") 10 100 [("Alice"), ("Bob")]) stInit

/-- After the owner starts session 1 at time 10. -/
def stB : MultiSessionVotingSystem := stepOp (Op.opStartSession 1 10 1) stA

/-- After the owner registers voter 2. -/
def stC : MultiSessionVotingSystem := stepOp (Op.opRegisterVoter 1 2) stB

/-- After voter 1 (the owner) votes for Alice in session 1. -/
def stD : MultiSessionVotingSystem := stepOp (Op.opVote 1 10 1 1) stC

/-- After voter 2 also votes, for Bob: a 1-1 tie. -/
def stE : MultiSessionVotingSystem := stepOp (Op.opVote 2 10 1 2) stD

/-- After the owner ends session 1 (from the one-vote state). -/
def stF : MultiSessionVotingSystem := stepOp (Op.opEndSession 1 1) stD

/-- After the owner removes candidate 1 (Alice), who holds the only vote. -/
def stG : MultiSessionVotingSystem := stepOp (Op.opRemoveCandidate 1 10 1 1) stF

lemma reach_stA : Reachable stA :=
  Reachable.step (Op.opCreateSession 1 0 ("Council") 10 100 [("Alice"), ("Bob")])
    (Reachable.init 1)

lemma reach_stB : Reachable stB := Reachable.step (Op.opStartSession 1 10 1) reach_stA

lemma reach_stC : Reachable stC := Reachable.step (Op.opRegisterVoter 1 2) reach_stB

lemma reach_stD : Reachable stD := Reachable.step (Op.opVote 1 10 1 1) reach_stC

lemma reach_stE : Reachable stE := Reachable.step (Op.opVote 2 10 1 2) reach_stD

lemma reach_stF : Reachable stF := Reachable.step (Op.opEndSession 1 1) reach_stD

lemma reach_stG : Reachable stG := Reachable.step (Op.opRemoveCandidate 1 10 1 1) reach_stF

example : stD.sessionCount = 1 := by decide
example : (stD.votingSessions 1).hasVoted 1 = true := by decide
example : (stD.votingSessions 1).totalVotes = 1 := by decide
example : (stE.votingSessions 1).totalVotes = 2 := by decide
example : ((stG.votingSessions 1).candidates 1).isActive = false := by decide
example : ((stG.votingSessions 1).candidates 1).voteCount = 1 := by decide
example : (stG.votingSessions 1).totalVotes = 1 := by decide
example : isSessionActive 10 stB 1 = true := by decide
example : getSessionWinner stE 1 = .ok (("Alice"), 1, true) := by rfl
example : getSessionWinner stA 1 = .ok (("No votes cast"), 0, false) := by rfl
example : getSessionWinner stG 1 = .ok (("No winner"), 0, false) := by rfl

/-- C1: after every committed operation (i.e., in every reachable state),
every session's `totalVotes` equals the sum of `voteCount` over all of that
session's candidate slots (active or deactivated), and also equals the
number of voters recorded with `hasVoted = true` for that session. -/
theorem claim1_tally_consistency (st : MultiSessionVotingSystem)
    (h : Reachable st) (sid : Nat) :
    (st.votingSessions sid).totalVotes = sumVotes (st.votingSessions sid) ∧
    (votersOf (st.votingSessions sid)).ncard = (st.votingSessions sid).totalVotes :=
  ⟨(GInv_reachable h).tv_sum sid, (GInv_reachable h).voters_card sid⟩

theorem claim1_tally_consistency_witness :
    (stD.votingSessions 1).totalVotes = sumVotes (stD.votingSessions 1) ∧
    (votersOf (stD.votingSessions 1)).ncard = (stD.votingSessions 1).totalVotes :=
  claim1_tally_consistency stD reach_stD 1

/-- C2: once `hasVoted` is true for a (voter, session) pair in a reachable
state, after any further sequence of committed calls it is still true, the
recorded `voterChoice` is unchanged, the event log holds at most one
`VoteCast` for the pair, and any vote call by that voter for that session
fails with a `StateError`. -/
theorem claim2_vote_write_once (st : MultiSessionVotingSystem) (h : Reachable st)
    (sid a : Nat) (hv : (st.votingSessions sid).hasVoted a = true) :
    ∀ ops : List Op,
      ((runOps st ops).votingSessions sid).hasVoted a = true ∧
      ((runOps st ops).votingSessions sid).voterChoice a
        = (st.votingSessions sid).voterChoice a ∧
      voteCastCount (runOps st ops).events sid a ≤ 1 ∧
      (∀ now cid, ∃ m, vote a now sid cid (runOps st ops)
        = .error (Err.StateError m)) := by
  intro ops
  have hR2 := Reachable_runOps h ops
  have hI2 := GInv_reachable hR2
  have hp := runOps_vote_record_persist ops h hv
  have hv2 := hp.1
  have hsid : 1 ≤ sid ∧ sid ≤ (runOps st ops).sessionCount := by
    by_cases h1 : 1 ≤ sid
    · by_cases h2 : sid ≤ (runOps st ops).sessionCount
      · exact ⟨h1, h2⟩
      · rw [(hI2.high_clear sid (Or.inr (by omega))).2 a] at hv2
        exact Bool.noConfusion hv2
    · rw [(hI2.high_clear sid (Or.inl (by omega))).2 a] at hv2
      exact Bool.noConfusion hv2
  refine ⟨hv2, hp.2, ?_, ?_⟩
  · rw [hI2.vc_count sid a]
    split_ifs <;> omega
  · intro now cid
    exact vote_already_voted_state_error cid hsid.1 hsid.2
      (hI2.low_created sid hsid.1 hsid.2) (hI2.voted_reg sid a hv2) hv2

theorem claim2_vote_write_once_witness :
    (stD.votingSessions 1).hasVoted 1 = true ∧
    ∀ ops : List Op,
      ((runOps stD ops).votingSessions 1).hasVoted 1 = true ∧
      ((runOps stD ops).votingSessions 1).voterChoice 1
        = (stD.votingSessions 1).voterChoice 1 ∧
      voteCastCount (runOps stD ops).events 1 1 ≤ 1 ∧
      (∀ now cid, ∃ m, vote 1 now 1 cid (runOps stD ops)
        = .error (Err.StateError m)) :=
  ⟨by decide, claim2_vote_write_once stD reach_stD 1 1 (by decide)⟩

/-- C3: every mutating operation is all-or-nothing: whenever its
implementation rejects the call, the committed state (storage and event
log) is exactly the state before the call — in particular a
`createSession` that fails while adding one of its candidates leaves
`sessionCount`, sessions and the log untouched (see the witness). -/
theorem claim3_failure_atomicity (o : Op) (st : MultiSessionVotingSystem)
    (e : Err) (h : runOp o st = .error e) : stepOp o st = st := by
  unfold stepOp
  rw [h]

theorem claim3_failure_atomicity_witness :
    runOp (Op.opCreateSession 1 0 ("Council") 10 100 [("Alice"), ("")]) stInit
      = .error (Err.ValidationError ("Candidate name cannot be empty")) ∧
    stepOp (Op.opCreateSession 1 0 ("Council") 10 100 [("Alice"), ("")]) stInit
      = stInit :=
  ⟨by rfl, claim3_failure_atomicity
    (Op.opCreateSession 1 0 ("Council") 10 100 [("Alice"), ("")]) stInit
    (Err.ValidationError ("Candidate name cannot be empty")) (by rfl)⟩

/-- C4 counterexample: in reachable state `stG` session 1 has
`totalVotes = 1 > 0`; its lowest-id (indeed only) active candidate is
candidate 2 with `voteCount = 0`, the maximum over active candidates — yet
`getSessionWinner` returns the sentinel `("No winner", 0, false)` instead
of candidate 2's name, so the claim's positive-total clause is false. -/
theorem claim4_counterexample :
    (stG.votingSessions 1).totalVotes = 1 ∧
    (stG.votingSessions 1).candidateCount = 2 ∧
    ((stG.votingSessions 1).candidates 1).isActive = false ∧
    ((stG.votingSessions 1).candidates 2).isActive = true ∧
    ((stG.votingSessions 1).candidates 2).voteCount = 0 ∧
    getSessionWinner stG 1 = .ok (("No winner"), 0, false) ∧
    ("No winner") ≠ ((stG.votingSessions 1).candidates 2).name := by
  refine ⟨by decide, by decide, by decide, by decide, by decide, by rfl, by decide⟩

/-- C4 (amended): on an existing session, `getSessionWinner` returns
`("No votes cast", 0, false)` when `totalVotes = 0`; and when
`totalVotes > 0` *and at least one active candidate has a positive
`voteCount`*, it returns the name and count of the lowest-id active
candidate whose `voteCount` is maximal among active candidates, with
`isTie` true iff at least two active candidates share that maximum. -/
theorem claim4_winner_amended (st : MultiSessionVotingSystem) (sid : Nat)
    (hsid1 : 1 ≤ sid) (hsid2 : sid ≤ st.sessionCount)
    (hcr : (st.votingSessions sid).isCreated = true) :
    ((st.votingSessions sid).totalVotes = 0 →
      getSessionWinner st sid = .ok (("No votes cast"), 0, false)) ∧
    ((st.votingSessions sid).totalVotes ≠ 0 →
     (∃ i, 1 ≤ i ∧ i ≤ (st.votingSessions sid).candidateCount ∧
        ((st.votingSessions sid).candidates i).isActive = true ∧
        0 < ((st.votingSessions sid).candidates i).voteCount) →
     ∃ w tie, 1 ≤ w ∧ w ≤ (st.votingSessions sid).candidateCount ∧
       ((st.votingSessions sid).candidates w).isActive = true ∧
       0 < ((st.votingSessions sid).candidates w).voteCount ∧
       getSessionWinner st sid
         = .ok (((st.votingSessions sid).candidates w).name,
                ((st.votingSessions sid).candidates w).voteCount, tie) ∧
       (∀ i, 1 ≤ i → i ≤ (st.votingSessions sid).candidateCount →
          ((st.votingSessions sid).candidates i).isActive = true →
          ((st.votingSessions sid).candidates i).voteCount
            ≤ ((st.votingSessions sid).candidates w).voteCount) ∧
       (∀ i, 1 ≤ i → i ≤ (st.votingSessions sid).candidateCount →
          ((st.votingSessions sid).candidates i).isActive = true →
          ((st.votingSessions sid).candidates i).voteCount
            = ((st.votingSessions sid).candidates w).voteCount → w ≤ i) ∧
       (tie = true ↔ ∃ j, 1 ≤ j ∧ j ≤ (st.votingSessions sid).candidateCount ∧
          j ≠ w ∧ ((st.votingSessions sid).candidates j).isActive = true ∧
          ((st.votingSessions sid).candidates j).voteCount
            = ((st.votingSessions sid).candidates w).voteCount)) := by
  constructor
  · intro htv
    unfold getSessionWinner
    rw [if_neg (not_not_intro ⟨hsid1, hsid2⟩), if_neg (not_not_intro hcr)]
    dsimp only
    rw [if_pos htv]
  · intro htv hpos
    unfold getSessionWinner
    rw [if_neg (not_not_intro ⟨hsid1, hsid2⟩), if_neg (not_not_intro hcr)]
    dsimp only
    rw [if_neg htv]
    rcases tallyAux_spec (st.votingSessions sid) (st.votingSessions sid).candidateCount
      with ⟨hz, hall⟩ | ⟨hw1, hw2, hwa, hwc, hM, hmax, hleast, ht⟩
    · obtain ⟨i, hi1, hi2, hi3, hi4⟩ := hpos
      have := hall i hi1 hi2 hi3
      omega
    · rw [if_pos (Nat.lt_of_lt_of_le Nat.zero_lt_one hw1)]
      refine ⟨(tallyAux (st.votingSessions sid) (st.votingSessions sid).candidateCount).2.1,
        decide (1 < (tallyAux (st.votingSessions sid)
          (st.votingSessions sid).candidateCount).2.2),
        hw1, hw2, hwa, by omega, by rw [hwc], ?_, ?_, ?_⟩
      · intro i h1 h2 h3
        rw [hwc]
        exact hmax i h1 h2 h3
      · intro i h1 h2 h3 h4
        rw [hwc] at h4
        exact hleast i h1 h2 h3 h4
      · rw [hwc]
        constructor
        · intro hd
          have h2t := of_decide_eq_true hd
          rw [ht] at h2t
          have h2t2 : 2 ≤ countEqA (st.votingSessions sid)
              (st.votingSessions sid).candidateCount
              (tallyAux (st.votingSessions sid)
                (st.votingSessions sid).candidateCount).1 := by omega
          obtain ⟨j, hj1, hj2, hj3, hj4, hj5⟩ := countEqA_two_exists_other
            (w := (tallyAux (st.votingSessions sid)
              (st.votingSessions sid).candidateCount).2.1) h2t2
          exact ⟨j, hj1, hj2, hj3, hj4, hj5⟩
        · rintro ⟨j, hj1, hj2, hj3, hj4, hj5⟩
          apply decide_eq_true
          rw [ht]
          have h2 := countEqA_two_witnesses (Ne.symm hj3) hw1 hw2 hwa hwc
            hj1 hj2 hj4 hj5
          omega

lemma emit_sessionCount (st : MultiSessionVotingSystem) (e : Event) :
    (st.emit e).sessionCount = st.sessionCount := rfl

lemma setSession_sessionCount (st : MultiSessionVotingSystem) (sid : Nat)
    (s : VotingSession) : (st.setSession sid s).sessionCount = st.sessionCount := rfl

/-- C5 counterexample: in reachable state `stA` session 1 exists and
`isSessionActive` is false, yet a vote by the unregistered caller 2 fails
with `AuthError`, not `StateError` — the claim's unqualified "vote fails
with StateError whenever isSessionActive is false" is false as stated. -/
theorem claim5_counterexample :
    1 ≤ stA.sessionCount ∧ (stA.votingSessions 1).isCreated = true ∧
    isSessionActive 0 stA 1 = false ∧
    vote 2 0 1 1 stA = .error (Err.AuthError ("Not registered to vote")) ∧
    (∀ m, vote 2 0 1 1 stA ≠ .error (Err.StateError m)) := by
  refine ⟨by decide, by decide, by decide, by rfl, ?_⟩
  intro m h
  have he : vote 2 0 1 1 stA = .error (Err.AuthError ("Not registered to vote")) := by rfl
  rw [he] at h
  simp at h

/-- C5 (amended): `isSessionActive` is total, false on out-of-range ids,
and otherwise true iff created, flagged active and the clock is inside the
window; and a vote by a *registered* caller against an existing session
with `isSessionActive` false — even if the stored `isActive` flag is
true — fails with `StateError`. -/
theorem claim5_amended (st : MultiSessionVotingSystem) (now sid sender cid : Nat) :
    ((sid = 0 ∨ st.sessionCount < sid) → isSessionActive now st sid = false) ∧
    (1 ≤ sid → sid ≤ st.sessionCount →
      (isSessionActive now st sid = true ↔
        ((st.votingSessions sid).isCreated = true ∧
         (st.votingSessions sid).isActive = true ∧
         (st.votingSessions sid).startTime ≤ now ∧
         now ≤ (st.votingSessions sid).endTime))) ∧
    (1 ≤ sid → sid ≤ st.sessionCount → (st.votingSessions sid).isCreated = true →
      st.registeredVoters sender = true → isSessionActive now st sid = false →
      vote sender now sid cid st = .error (Err.StateError ("Session not active"))) := by
  refine ⟨?_, ?_, ?_⟩
  · intro h
    unfold isSessionActive
    rw [if_pos h]
  · intro h1 h2
    unfold isSessionActive
    rw [if_neg (by omega)]
    dsimp only
    by_cases hcr : (st.votingSessions sid).isCreated = true
    · by_cases hac : (st.votingSessions sid).isActive = true
      · rw [if_neg (by simp [hcr, hac])]
        constructor
        · intro hdec
          exact ⟨hcr, hac, (of_decide_eq_true hdec).1, (of_decide_eq_true hdec).2⟩
        · rintro ⟨-, -, h3, h4⟩
          exact decide_eq_true ⟨h3, h4⟩
      · rw [if_pos (Or.inr hac)]
        constructor
        · intro hf
          exact Bool.noConfusion hf
        · rintro ⟨-, h4, -, -⟩
          exact absurd h4 hac
    · rw [if_pos (Or.inl hcr)]
      constructor
      · intro hf
        exact Bool.noConfusion hf
      · rintro ⟨h3, -, -, -⟩
        exact absurd h3 hcr
  · intro h1 h2 hcr hreg hfalse
    unfold vote
    rw [if_neg (not_not_intro ⟨h1, h2⟩), if_neg (not_not_intro hcr),
      if_neg (not_not_intro hreg), if_pos (by simp [hfalse])]

theorem claim5_amended_witness :
    isSessionActive 0 stA 1 = false ∧
    vote 1 0 1 1 stA = .error (Err.StateError ("Session not active")) :=
  ⟨by decide, (claim5_amended stA 0 1 1 1).2.2 (by decide) (by decide) (by decide)
    (by decide) (by decide)⟩

/-- C6: `createSession` called by the owner fails with `ValidationError`
on an empty name, an inverted window or an empty candidate list, leaving
the committed state untouched; on success it allocates id
`sessionCount + 1`, increments `sessionCount`, and stores the session
inactive, created, with zero votes, the supplied metadata and the supplied
candidates in input order under ids `1..n`, each with `voteCount = 0` and
`isActive = true`. -/
theorem claim6_createSession (st : MultiSessionVotingSystem)
    (sender now : Nat) (sname : String) (startT endT : Nat) (cnames : List String)
    (hown : sender = st.owner) :
    ((sname = "" ∨ endT ≤ startT ∨ cnames = []) →
      (∃ m, createSession sender now sname startT endT cnames st
        = .error (Err.ValidationError m)) ∧
      stepOp (Op.opCreateSession sender now sname startT endT cnames) st = st) ∧
    (∀ st' sid, createSession sender now sname startT endT cnames st = .ok (st', sid) →
      sid = st.sessionCount + 1 ∧ st'.sessionCount = st.sessionCount + 1 ∧
      (st'.votingSessions sid).isActive = false ∧
      (st'.votingSessions sid).isCreated = true ∧
      (st'.votingSessions sid).totalVotes = 0 ∧
      (st'.votingSessions sid).sessionName = sname ∧
      (st'.votingSessions sid).startTime = startT ∧
      (st'.votingSessions sid).endTime = endT ∧
      (st'.votingSessions sid).candidateCount = cnames.length ∧
      (∀ k, (hk : k < cnames.length) →
        (st'.votingSessions sid).candidates (k + 1)
          = { id := k + 1, name := cnames.get ⟨k, hk⟩,
              voteCount := 0, isActive := true })) := by
  have hfail : (sname = "" ∨ endT ≤ startT ∨ cnames = []) →
      ∃ m, createSession sender now sname startT endT cnames st
        = .error (Err.ValidationError m) := by
    intro hc
    unfold createSession
    rw [if_neg (not_not_intro hown)]
    by_cases ht : startT < endT
    · rw [if_neg (not_not_intro ht)]
      by_cases hl : cnames = []
      · rw [if_pos hl]
        exact ⟨("At least one candidate required"), rfl⟩
      · rw [if_neg hl]
        have hn : sname = "" := by
          rcases hc with h | h | h
          · exact h
          · omega
          · exact absurd h hl
        rw [if_pos hn]
        exact ⟨("Session name cannot be empty"), rfl⟩
    · rw [if_pos ht]
      exact ⟨("Invalid time range"), rfl⟩
  constructor
  · intro hc
    obtain ⟨m, hm⟩ := hfail hc
    refine ⟨⟨m, hm⟩, ?_⟩
    unfold stepOp
    have hrun : runOp (Op.opCreateSession sender now sname startT endT cnames) st
        = .error (Err.ValidationError m) := by
      unfold runOp
      dsimp only
      rw [hm]
    rw [hrun]
  · intro st' sid h
    obtain ⟨-, -, -, -, h5, st2, hfold, hp⟩ := createSession_ok h
    have hsid : sid = st.sessionCount + 1 := h5
    have hst' : st' = st2.emit (Event.SessionCreated (st.sessionCount + 1)
        sname startT endT) := hp
    subst hsid
    subst hst'
    have hf := addCandidates_frame cnames hfold
    refine ⟨rfl, ?_, ?_, ?_, ?_, ?_, ?_, ?_, ?_, ?_⟩
    · rw [emit_sessionCount, hf.sc, setSession_sessionCount]
    · rw [emit_sessions, hf.act, setSession_sessions, if_pos rfl]
    · rw [emit_sessions, hf.crd, setSession_sessions, if_pos rfl]
    · rw [emit_sessions, hf.tv, setSession_sessions, if_pos rfl]
    · rw [emit_sessions, hf.sname, setSession_sessions, if_pos rfl]
    · rw [emit_sessions, hf.stime, setSession_sessions, if_pos rfl]
    · rw [emit_sessions, hf.etime, setSession_sessions, if_pos rfl]
    · rw [emit_sessions, hf.cc, setSession_sessions, if_pos rfl]
      show (0 : Nat) + cnames.length = cnames.length
      omega
    · intro k hk
      have hnew := hf.newc k hk
      rw [setSession_sessions, if_pos rfl] at hnew
      have hnew2 : (st2.votingSessions (st.sessionCount + 1)).candidates (0 + k + 1)
          = { id := 0 + k + 1, name := cnames.get ⟨k, hk⟩,
              voteCount := 0, isActive := true } := hnew
      rw [Nat.zero_add] at hnew2
      rw [emit_sessions]
      exact hnew2

theorem claim6_createSession_witness :
    (∃ m, createSession 1 0 ("Council") 100 10 [("Alice")] stInit
      = .error (Err.ValidationError m)) ∧
    stepOp (Op.opCreateSession 1 0 ("Council") 100 10 [("Alice")]) stInit = stInit ∧
    (stA.votingSessions 1).candidateCount = 2 := by
  have hbad := (claim6_createSession stInit 1 0 ("Council") 100 10 [("Alice")] rfl).1
    (Or.inr (Or.inl (by omega)))
  have hok := (claim6_createSession stInit 1 0 ("Council") 10 100
    [("Alice"), ("Bob")] rfl).2 stA 1 (by rfl)
  refine ⟨hbad.1, hbad.2, ?_⟩
  rw [hok.2.2.2.2.2.2.2.2.1]
  rfl

/-- C7: `endSession` by the owner on an existing session has no
time-window precondition: whenever the stored `isActive` flag is true it
succeeds (at any clock value), clearing only that flag and appending a
`SessionEnded` event; whenever the flag is false it fails with
`StateError`. -/
theorem claim7_endSession (st : MultiSessionVotingSystem) (sender sid now : Nat)
    (hown : sender = st.owner) (hsid1 : 1 ≤ sid) (hsid2 : sid ≤ st.sessionCount)
    (hcr : (st.votingSessions sid).isCreated = true) :
    ((st.votingSessions sid).isActive = true →
      endSession sender sid st
        = .ok ((st.setSession sid { st.votingSessions sid with isActive := false }).emit
            (Event.SessionEnded sid))) ∧
    ((st.votingSessions sid).isActive = false →
      endSession sender sid st = .error (Err.StateError ("Session not active"))) := by
  constructor
  · intro hac
    unfold endSession
    rw [if_neg (not_not_intro hown), if_neg (not_not_intro ⟨hsid1, hsid2⟩),
      if_neg (not_not_intro hcr)]
    dsimp only
    rw [if_neg (by simp [hac])]
  · intro hin
    unfold endSession
    rw [if_neg (not_not_intro hown), if_neg (not_not_intro ⟨hsid1, hsid2⟩),
      if_neg (not_not_intro hcr)]
    dsimp only
    rw [if_pos (by simp [hin])]

theorem claim7_endSession_witness :
    endSession 1 1 stB
      = .ok ((stB.setSession 1 { stB.votingSessions 1 with isActive := false }).emit
          (Event.SessionEnded 1)) ∧
    endSession 1 1 stA = .error (Err.StateError ("Session not active")) :=
  ⟨(claim7_endSession stB 1 1 0 (by decide) (by decide) (by decide) (by decide)).1
    (by decide),
   (claim7_endSession stA 1 1 0 (by decide) (by decide) (by decide) (by decide)).2
    (by decide)⟩

/-- C8 counterexample: removing Alice from the ended session succeeds
(state `stG`), and a vote by registered voter 2 naming the removed
candidate id then fails with `StateError` ("Session not active"), not
`ValidationError` — so "any vote naming that candidate id fails with
ValidationError" is false as stated. -/
theorem claim8_counterexample :
    removeCandidateFromSession 1 10 1 1 stF = .ok stG ∧
    stG.registeredVoters 2 = true ∧
    vote 2 10 1 1 stG = .error (Err.StateError ("Session not active")) ∧
    (∀ m, vote 2 10 1 1 stG ≠ .error (Err.ValidationError m)) := by
  refine ⟨by rfl, by decide, by rfl, ?_⟩
  intro m h
  have he : vote 2 10 1 1 stG = .error (Err.StateError ("Session not active")) := by rfl
  rw [he] at h
  simp at h

/-- C8 (amended): a successful `removeCandidateFromSession` changes only
the targeted candidate's `isActive` flag — its vote count and name, every
other candidate, the session's tallies and per-voter records, the other
sessions and the globals are unchanged; afterwards, across any further
sequence of committed calls, no vote naming that candidate id can ever
succeed, and such a vote fails with `ValidationError` whenever the vote's
earlier checks (registered caller, session active, caller not yet voted)
pass. -/
theorem claim8_remove_amended (st st' : MultiSessionVotingSystem)
    (sender now sid cid : Nat)
    (h : removeCandidateFromSession sender now sid cid st = .ok st') :
    (st'.votingSessions sid).candidates cid
      = { (st.votingSessions sid).candidates cid with isActive := false } ∧
    ((st'.votingSessions sid).candidates cid).voteCount
      = ((st.votingSessions sid).candidates cid).voteCount ∧
    ((st'.votingSessions sid).candidates cid).name
      = ((st.votingSessions sid).candidates cid).name ∧
    (∀ j, j ≠ cid → (st'.votingSessions sid).candidates j
      = (st.votingSessions sid).candidates j) ∧
    (st'.votingSessions sid).totalVotes = (st.votingSessions sid).totalVotes ∧
    (∀ a, (st'.votingSessions sid).hasVoted a = (st.votingSessions sid).hasVoted a) ∧
    (∀ a, (st'.votingSessions sid).voterChoice a
      = (st.votingSessions sid).voterChoice a) ∧
    (∀ j, j ≠ sid → st'.votingSessions j = st.votingSessions j) ∧
    st'.sessionCount = st.sessionCount ∧
    (∀ a, st'.registeredVoters a = st.registeredVoters a) ∧
    (∀ ops : List Op, ∀ voter now2,
      (∀ st2, vote voter now2 sid cid (runOps st' ops) ≠ .ok st2) ∧
      ((runOps st' ops).registeredVoters voter = true →
       isSessionActive now2 (runOps st' ops) sid = true →
       ((runOps st' ops).votingSessions sid).hasVoted voter = false →
       vote voter now2 sid cid (runOps st' ops)
         = .error (Err.ValidationError ("Candidate not active")))) := by
  obtain ⟨-, hs1, hs2, -, -, hc1, hc2, -, hst⟩ := removeCandidate_ok h
  have hframe : ∀ j, (st'.votingSessions sid).candidates j
      = (if j = cid then { (st.votingSessions sid).candidates cid with isActive := false }
         else (st.votingSessions sid).candidates j) := by
    intro j
    rw [hst, emit_sessions, setSession_sessions, if_pos rfl]
  have hcand : (st'.votingSessions sid).candidates cid
      = { (st.votingSessions sid).candidates cid with isActive := false } := by
    rw [hframe cid, if_pos rfl]
  have hinact : ((st'.votingSessions sid).candidates cid).isActive = false := by
    rw [hcand]
  have hs2' : sid ≤ st'.sessionCount := by
    rw [hst, emit_sessionCount, setSession_sessionCount]
    exact hs2
  have hc2' : cid ≤ (st'.votingSessions sid).candidateCount := by
    rw [hst, emit_sessions, setSession_sessions, if_pos rfl]
    exact hc2
  refine ⟨hcand, by rw [hcand], by rw [hcand], ?_, ?_, ?_, ?_, ?_, ?_, ?_, ?_⟩
  · intro j hj
    rw [hframe j, if_neg hj]
  · rw [hst, emit_sessions, setSession_sessions, if_pos rfl]
  · intro a
    rw [hst, emit_sessions, setSession_sessions, if_pos rfl]
  · intro a
    rw [hst, emit_sessions, setSession_sessions, if_pos rfl]
  · intro j hj
    rw [hst, emit_sessions, setSession_sessions, if_neg hj]
  · rw [hst, emit_sessionCount, setSession_sessionCount]
  · intro a
    rw [hst]
    rfl
  · intro ops voter now2
    have hper := runOps_candidate_persist ops hs1 hs2' hc1 hc2' hinact
    have hinact2 : (((runOps st' ops).votingSessions sid).candidates cid).isActive
        = false := by
      rw [hper.2.2]
      exact hinact
    constructor
    · intro st2
      exact vote_never_ok_inactive hinact2
    · intro hreg hact hnv
      have hparts := isSessionActive_created hact
      exact vote_inactive_validation hparts.1 hparts.2.1 hparts.2.2.1 hreg hact hnv
        hc1 hper.2.1 hinact2

theorem claim8_remove_amended_witness :
    removeCandidateFromSession 1 10 1 1 stF = .ok stG ∧
    (∀ st2, vote 2 10 1 1 stG ≠ .ok st2) ∧
    ((stG.votingSessions 1).candidates 1).voteCount
      = ((stF.votingSessions 1).candidates 1).voteCount := by
  obtain ⟨-, hvc, -, -, -, -, -, -, -, -, hvote⟩ :=
    claim8_remove_amended stF stG 1 10 1 1 (by rfl)
  exact ⟨by rfl, fun st2 => (hvote [] 2 10).1 st2, hvc⟩

/-- C9 counterexample: session 1 is active in state `stB`, yet
`addCandidateToSession` called by non-owner 2 fails with `AuthError`, not
`StateError` — the claim's unqualified "fail with StateError whenever the
owning session is active" is false as stated. -/
theorem claim9_counterexample :
    isSessionActive 10 stB 1 = true ∧
    addCandidateToSession 2 10 1 ("Xavier") stB
      = .error (Err.AuthError ("Only owner can perform this action")) ∧
    (∀ m, addCandidateToSession 2 10 1 ("Xavier") stB ≠ .error (Err.StateError m)) := by
  refine ⟨by decide, by rfl, ?_⟩
  intro m h
  have he : addCandidateToSession 2 10 1 ("Xavier") stB
      = .error (Err.AuthError ("Only owner can perform this action")) := by rfl
  rw [he] at h
  simp at h

/-- C9 (amended): for the administrative caller on an existing session,
`addCandidateToSession`, `updateCandidate` and `removeCandidateFromSession`
fail with `StateError` whenever the session is active per
`isSessionActive`; and (for any caller) each of the three succeeds only
when the session is not active. -/
theorem claim9_modify_inactive_amended (st : MultiSessionVotingSystem)
    (sender now sid cid : Nat) (cname newName : String)
    (hown : sender = st.owner) (hsid1 : 1 ≤ sid) (hsid2 : sid ≤ st.sessionCount)
    (hcr : (st.votingSessions sid).isCreated = true) :
    (isSessionActive now st sid = true →
      addCandidateToSession sender now sid cname st
        = .error (Err.StateError ("Cannot modify active session")) ∧
      updateCandidate sender now sid cid newName st
        = .error (Err.StateError ("Cannot modify active session")) ∧
      removeCandidateFromSession sender now sid cid st
        = .error (Err.StateError ("Cannot modify active session"))) ∧
    (∀ st', addCandidateToSession sender now sid cname st = .ok st' →
      isSessionActive now st sid = false) ∧
    (∀ st', updateCandidate sender now sid cid newName st = .ok st' →
      isSessionActive now st sid = false) ∧
    (∀ st', removeCandidateFromSession sender now sid cid st = .ok st' →
      isSessionActive now st sid = false) := by
  refine ⟨?_, ?_, ?_, ?_⟩
  · intro hact
    refine ⟨?_, ?_, ?_⟩
    · unfold addCandidateToSession
      rw [if_neg (not_not_intro hown), if_neg (not_not_intro ⟨hsid1, hsid2⟩),
        if_neg (not_not_intro hcr), if_pos hact]
    · unfold updateCandidate
      rw [if_neg (not_not_intro hown), if_neg (not_not_intro ⟨hsid1, hsid2⟩),
        if_neg (not_not_intro hcr), if_pos hact]
    · unfold removeCandidateFromSession
      rw [if_neg (not_not_intro hown), if_neg (not_not_intro ⟨hsid1, hsid2⟩),
        if_neg (not_not_intro hcr), if_pos hact]
  · intro st' hok
    exact (addCandidate_ok hok).2.2.2.2.1
  · intro st' hok
    exact (updateCandidate_ok hok).2.2.2.2.1
  · intro st' hok
    exact (removeCandidate_ok hok).2.2.2.2.1

theorem claim9_modify_inactive_amended_witness :
    addCandidateToSession 1 10 1 ("Xavier") stB
      = .error (Err.StateError ("Cannot modify active session")) ∧
    updateCandidate 1 10 1 1 ("Yvette") stB
      = .error (Err.StateError ("Cannot modify active session")) ∧
    removeCandidateFromSession 1 10 1 1 stB
      = .error (Err.StateError ("Cannot modify active session")) :=
  (claim9_modify_inactive_amended stB 1 10 1 1 ("Xavier") ("Yvette")
    (by decide) (by decide) (by decide) (by decide)).1 (by decide)

/-- C10: on an existing session with a positive vote total in which no
active candidate holds a positive vote count (for example after every
vote-holding candidate was deactivated), `getSessionWinner` returns the
distinct sentinel `("No winner", 0, false)` and names no candidate. -/
theorem claim10_no_winner (st : MultiSessionVotingSystem) (sid : Nat)
    (hsid1 : 1 ≤ sid) (hsid2 : sid ≤ st.sessionCount)
    (hcr : (st.votingSessions sid).isCreated = true)
    (htv : (st.votingSessions sid).totalVotes ≠ 0)
    (hzero : ∀ i, 1 ≤ i → i ≤ (st.votingSessions sid).candidateCount →
      ((st.votingSessions sid).candidates i).isActive = true →
      ((st.votingSessions sid).candidates i).voteCount = 0) :
    getSessionWinner st sid = .ok (("No winner"), 0, false) := by
  unfold getSessionWinner
  rw [if_neg (not_not_intro ⟨hsid1, hsid2⟩), if_neg (not_not_intro hcr)]
  dsimp only
  rw [if_neg htv]
  rcases tallyAux_spec (st.votingSessions sid) (st.votingSessions sid).candidateCount
    with ⟨hz, -⟩ | ⟨hw1, hw2, hwa, hwc, hM, -, -, -⟩
  · rw [hz]
    rw [if_neg (by decide)]
  · have := hzero _ hw1 hw2 hwa
    omega

theorem claim10_no_winner_witness :
    getSessionWinner stG 1 = .ok (("No winner"), 0, false) := by
  refine claim10_no_winner stG 1 (by decide) (by decide) (by decide) (by decide) ?_
  intro i h1 h2 h3
  have hcc : (stG.votingSessions 1).candidateCount = 2 := by decide
  rw [hcc] at h2
  interval_cases i
  · exact absurd h3 (by decide)
  · decide

theorem claim4_winner_amended_witness :
    getSessionWinner stA 1 = .ok (("No votes cast"), 0, false) ∧
    (∃ w tie, 1 ≤ w ∧ w ≤ (stE.votingSessions 1).candidateCount ∧
      ((stE.votingSessions 1).candidates w).isActive = true ∧
      0 < ((stE.votingSessions 1).candidates w).voteCount ∧
      getSessionWinner stE 1
        = .ok (((stE.votingSessions 1).candidates w).name,
               ((stE.votingSessions 1).candidates w).voteCount, tie) ∧
      (∀ i, 1 ≤ i → i ≤ (stE.votingSessions 1).candidateCount →
         ((stE.votingSessions 1).candidates i).isActive = true →
         ((stE.votingSessions 1).candidates i).voteCount
           ≤ ((stE.votingSessions 1).candidates w).voteCount) ∧
      (∀ i, 1 ≤ i → i ≤ (stE.votingSessions 1).candidateCount →
         ((stE.votingSessions 1).candidates i).isActive = true →
         ((stE.votingSessions 1).candidates i).voteCount
           = ((stE.votingSessions 1).candidates w).voteCount → w ≤ i) ∧
      (tie = true ↔ ∃ j, 1 ≤ j ∧ j ≤ (stE.votingSessions 1).candidateCount ∧
         j ≠ w ∧ ((stE.votingSessions 1).candidates j).isActive = true ∧
         ((stE.votingSessions 1).candidates j).voteCount
           = ((stE.votingSessions 1).candidates w).voteCount)) :=
  ⟨(claim4_winner_amended stA 1 (by decide) (by decide) (by decide)).1 (by decide),
   (claim4_winner_amended stE 1 (by decide) (by decide) (by decide)).2 (by decide)
     ⟨1, by decide, by decide, by decide, by decide⟩⟩
